import Mathlib

/-!
Verification development for the CyberSentinel DLP Windows endpoint agent
(`agents/endpoint/newWindowsAgent/agent.cpp`).

The agent's pure logic is shallowly embedded: the filesystem is a finite
map from path strings to content strings, the agent's mutable members
(`filePolicies`, `originalFileContents`, `filesBeingQuarantined`,
`recentlyRestored`, `currentUSBFileState`, ...) are fields of explicit
state records, and each C++ handler becomes a Lean function from state
and inputs to state, filesystem and emitted event envelopes.  Detached
restore threads are modelled as explicit restore-task values returned by
the handler together with a separate function that runs a task (the
timer merely delays the run).  OS-level concerns (mutexes, HTTP transport
success, device driver calls, clock values) are outside the embedding:
mutex-guarded reads/writes become plain field accesses, timestamps are
`Nat` parameters, and the USB device blocker is recorded as an invoked/not
invoked flag.  Regex detectors: the classifier is parameterized by the
detector function `extract : String -> String -> List String`; the `ssn`
detector branch of `ExtractDataType` is embedded concretely for use in
concrete runs, and every general theorem below quantifies over the
detector, so it holds for the full detector catalogue of the source.
-/

namespace DLPAgent

/-- `ToLower` from agent.cpp: ASCII lower-casing of a string. -/
def ToLower (s : String) : String :=
  String.mk (s.data.map Char.toLower)

/-- A character counts as whitespace for the C `isspace` used by the parser. -/
def charIsSpace (c : Char) : Bool :=
  c = ' ' || c = '\t' || c = '\n' || c = '\x0b' || c = '\x0c' || c = '\r'

/-- Helper for `strFindFrom`: first index (counting from `i`) where `pat`
occurs in `s`, scanning left to right as `std::string::find` does. -/
def strFindAux (s pat : List Char) (i : Nat) : Option Nat :=
  match s with
  | [] => if pat.isEmpty then some i else none
  | _ :: t => if pat.isPrefixOf s then some i else strFindAux t pat (i + 1)

/-- Model of `std::string::find(pat, start)`: index of the first occurrence
of `pat` in `s` at or after `start`, `none` standing for `npos`. -/
def strFindFrom (s pat : String) (start : Nat) : Option Nat :=
  strFindAux (s.data.drop start) pat.data start

/-- Model of `std::string::find(pat)` (search from the start). -/
def strFind (s pat : String) : Option Nat :=
  strFindFrom s pat 0

/-- Model of `std::string::substr(pos, len)`. -/
def strSubstr (s : String) (pos len : Nat) : String :=
  String.mk ((s.data.drop pos).take len)

/-- Helper loop of `FindMatchingBracket`: walk the tail keeping the nesting
depth, returning the index of the bracket closing the opening one. -/
def findMatchingBracketAux (op cl : Char) : List Char → Nat → Nat → Option Nat
  | [], _, _ => none
  | c :: t, depth, i =>
    if c = op then findMatchingBracketAux op cl t (depth + 1) (i + 1)
    else if c = cl then
      if depth = 1 then some i else findMatchingBracketAux op cl t (depth - 1) (i + 1)
    else findMatchingBracketAux op cl t depth (i + 1)

/-- `DLPAgent::FindMatchingBracket`: index of the bracket matching the
opening bracket at `start`, or `none` when `start` does not hold `op` or
the brackets never balance. -/
def FindMatchingBracket (s : String) (start : Nat) (op cl : Char) : Option Nat :=
  match s.data.drop start with
  | [] => none
  | c :: rest =>
    if c = op then findMatchingBracketAux op cl rest 1 (start + 1) else none

/-! ### Filesystem model

A filesystem is an association list from absolute path to file content;
a path absent from the list does not exist.  `fsWrite` models opening a
file with `trunc` and writing (create or overwrite), `fsRename` models
`std::filesystem::rename`, `fsRemove` models `std::filesystem::remove`. -/

/-- Filesystem: finite map from path to byte content. -/
abbrev Fs := List (String × String)

/-- Content at a path, `none` when the file does not exist. -/
def fsRead (fs : Fs) (p : String) : Option String :=
  (fs.find? (fun e => e.1 = p)).map (·.2)

/-- Model of `std::filesystem::exists`. -/
def fsExists (fs : Fs) (p : String) : Bool :=
  (fsRead fs p).isSome

/-- Create or overwrite the file at `p` with content `c` (the map has one
entry per path, so overwrite replaces the entry). -/
def fsWrite (fs : Fs) (p c : String) : Fs :=
  (p, c) :: fs.filter (fun e => e.1 ≠ p)

/-- Model of `std::filesystem::remove`. -/
def fsRemove (fs : Fs) (p : String) : Fs :=
  fs.filter (fun e => e.1 ≠ p)

/-- Model of `std::filesystem::rename src dst` (no-op when `src` is absent,
as the C++ call would throw and the callers catch). -/
def fsRename (fs : Fs) (src dst : String) : Fs :=
  match fsRead fs src with
  | none => fs
  | some c => fsWrite (fsRemove fs src) dst c

/-- `ReadFileContent` from agent.cpp: content of the file truncated to the
default `maxBytes = 100000`, or `""` when the file cannot be opened. -/
def ReadFileContent (fs : Fs) (p : String) : String :=
  match fsRead fs p with
  | none => ""
  | some c => String.mk (c.data.take 100000)

/-! ### Policy rules and the content classifier -/

/-- `PolicyRule` from agent.cpp.  `minMatchCount` is an `Int` as in the
source (`int minMatchCount = 1`); the parser never assigns it, so it is
always 1 in parsed rules. -/
structure PolicyRule where
  policyId : String := ""
  name : String := ""
  policyType : String := ""
  action : String := ""
  dataTypes : List String := []
  fileExtensions : List String := []
  monitoredPaths : List String := []
  monitoredEvents : List String := []
  minMatchCount : Int := 1
  enabled : Bool := true
  quarantinePath : String := ""
  deriving Repr, DecidableEq

/-- `ClassificationResult` from agent.cpp.  `detectedContent` is the
`std::map<std::string, std::vector<std::string>>` kept in key order; the
`score`/`method` fields (a floating-point score and a constant string) are
not carried, no claim concerns them. -/
structure ClassificationResult where
  labels : List String := []
  severity : String := "low"
  matchedPolicies : List String := []
  suggestedAction : String := "logged"
  detectedContent : List (String × List String) := []
  deriving Repr, DecidableEq

/-- Key-ordered insertion into the `detectedContent` map, mirroring
`std::map::operator[]` assignment (replace on equal key, keep sorted). -/
def mapInsert (m : List (String × List String)) (k : String) (v : List String) :
    List (String × List String) :=
  match m with
  | [] => [(k, v)]
  | (k0, v0) :: t =>
    if k = k0 then (k, v) :: t
    else if k < k0 then (k, v) :: (k0, v0) :: t
    else (k0, v0) :: mapInsert t k v

/-- ECMAScript word character, for the `\b` boundaries of the detectors. -/
def isWordChar (c : Char) : Bool :=
  c.isAlphanum || c = '_'

/-- Match of the fixed-shape SSN regex body `\d{3}-\d{2}-\d{4}` at the head
of `s`, together with the trailing `\b` check; returns the matched text and
the remaining characters. -/
def ssnAt (s : List Char) : Option (String × List Char) :=
  match s with
  | d1 :: d2 :: d3 :: h1 :: d4 :: d5 :: h2 :: d6 :: d7 :: d8 :: d9 :: rest =>
    if d1.isDigit && d2.isDigit && d3.isDigit && h1 = '-'
        && d4.isDigit && d5.isDigit && h2 = '-'
        && d6.isDigit && d7.isDigit && d8.isDigit && d9.isDigit
        && (match rest with | [] => true | c :: _ => !isWordChar c) then
      some (String.mk [d1, d2, d3, h1, d4, d5, h2, d6, d7, d8, d9], rest)
    else none
  | _ => none

/-- Scanner for the `ssn` detector: leftmost non-overlapping occurrences of
`\b\d{3}-\d{2}-\d{4}\b`, collecting at most 10 results as the
`sregex_iterator` loop does.  `prevWord` tracks whether the character just
before the current position is a word character (for the leading `\b`). -/
def ssnScanAux : Nat → List Char → Bool → List String → List String
  | 0, _, _, acc => acc
  | fuel + 1, s, prevWord, acc =>
    if acc.length ≥ 10 then acc
    else
      match s with
      | [] => acc
      | c :: t =>
        if prevWord then ssnScanAux fuel t (isWordChar c) acc
        else
          match ssnAt s with
          | some (m, rest) => ssnScanAux fuel rest true (acc ++ [m])
          | none => ssnScanAux fuel t (isWordChar c) acc

/-- The `ssn` branch of `ContentClassifier::ExtractDataType`
(`\b\d{3}-\d{2}-\d{4}\b`, up to 10 matches). -/
def extractSSN (content : String) : List String :=
  ssnScanAux content.data.length content.data false []

/-- Concrete detector catalogue used for concrete runs: the name-alias
mapping of `ExtractDataType` sends `ssn` and `social_security` to the SSN
detector, embedded above; the other detector branches of the source are
regex catalogues not exercised by any claim, and every general theorem in
this file is stated for an arbitrary detector function, so nothing below
depends on them returning the empty list here. -/
def ExtractDataTypeModel (content dataType : String) : List String :=
  let lowerType := ToLower dataType
  if lowerType = "ssn" || lowerType = "social_security" then extractSSN content
  else []

/-- One iteration of the policy loop of `ContentClassifier::Classify`,
acting on the accumulated result. -/
def classifyStep (extract : String → String → List String)
    (content eventType : String) (r : ClassificationResult) (policy : PolicyRule) :
    ClassificationResult :=
  if !policy.enabled then r
  else
    let monitorsThisEvent :=
      eventType.isEmpty || policy.monitoredEvents.isEmpty ||
        policy.monitoredEvents.any (fun e =>
          eventType = e || e = "all" || e = "*" || e = "clipboard")
    if !monitorsThisEvent then r
    else
      let matchedTypes := policy.dataTypes.filter (fun dt => !(extract content dt).isEmpty)
      let matchCount : Int := matchedTypes.length
      let detected :=
        matchedTypes.foldl (fun m dt => mapInsert m dt (extract content dt)) r.detectedContent
      if matchCount ≥ policy.minMatchCount && matchCount > 0 then
        { r with
          matchedPolicies := r.matchedPolicies ++ [policy.policyId]
          labels := r.labels ++ matchedTypes
          detectedContent := detected
          severity :=
            if policy.action = "block" || policy.action = "quarantine" then "critical"
            else if policy.action = "alert" && r.severity ≠ "critical" then "high"
            else r.severity
          suggestedAction :=
            if policy.action = "block" || policy.action = "quarantine" then policy.action
            else if policy.action = "alert" && r.severity ≠ "critical" then "alerted"
            else r.suggestedAction }
      else { r with detectedContent := detected }

/-- `ContentClassifier::Classify`: fold of `classifyStep` over the policy
list starting from the low/logged initial result (the early return for an
empty policy list coincides with the empty fold). -/
def Classify (extract : String → String → List String)
    (content : String) (policies : List PolicyRule) (eventType : String) :
    ClassificationResult :=
  policies.foldl (classifyStep extract content eventType) {}

/-! ### Characterization of the classifier's suggested action (claim C5) -/

/-- A rule matches a classifier run: it is enabled, it monitors the event
kind (or the event filter does not apply), and the number of data types
with at least one detection meets `minMatchCount`.  This mirrors exactly
the conditions under which `Classify` reaches the `matchCount >=
policy.minMatchCount && matchCount > 0` branch for the rule. -/
def ruleMatches (extract : String → String → List String)
    (content eventType : String) (p : PolicyRule) : Bool :=
  p.enabled &&
    (eventType.isEmpty || p.monitoredEvents.isEmpty ||
      p.monitoredEvents.any (fun e =>
        eventType = e || e = "all" || e = "*" || e = "clipboard")) &&
    (let mc : Int := (p.dataTypes.filter (fun dt => !(extract content dt).isEmpty)).length
     mc ≥ p.minMatchCount && mc > 0)

/-- A rule whose action overwrites the suggested action outright. -/
def isEnforcing (p : PolicyRule) : Bool :=
  p.action = "block" || p.action = "quarantine"

/-- The action the classifier actually suggests: the action of the LAST
matched block/quarantine rule in rule order; failing that, `alerted` when
some matched rule has action `alert`; failing that, the initial `logged`. -/
def lastEnforcedAction (extract : String → String → List String)
    (content eventType : String) (rules : List PolicyRule) : String :=
  match (rules.filter (fun p =>
      ruleMatches extract content eventType p && isEnforcing p)).getLast? with
  | some p => p.action
  | none =>
    if rules.any (fun p =>
        ruleMatches extract content eventType p && p.action = "alert") then "alerted"
    else "logged"

theorem classifyStep_not_matches (extract : String → String → List String)
    (content et : String) (r : ClassificationResult) (p : PolicyRule)
    (h : ruleMatches extract content et p = false) :
    (classifyStep extract content et r p).severity = r.severity ∧
      (classifyStep extract content et r p).suggestedAction = r.suggestedAction := by
  unfold classifyStep
  unfold ruleMatches at h
  by_cases he : p.enabled
  · by_cases hm : (et.isEmpty || p.monitoredEvents.isEmpty ||
        p.monitoredEvents.any (fun e => et = e || e = "all" || e = "*" || e = "clipboard")) = true
    · have hc : ((((p.dataTypes.filter (fun dt => !(extract content dt).isEmpty)).length : Int)
          ≥ p.minMatchCount && ((p.dataTypes.filter
            (fun dt => !(extract content dt).isEmpty)).length : Int) > 0)) = false := by
        simp only [he, hm] at h
        simpa using h
      simp only [he, hm, Bool.not_true, Bool.false_eq_true, if_false]
      simp only [hc]
      simp
    · simp only [Bool.not_eq_true] at hm
      simp [hm]
  · simp only [Bool.not_eq_true] at he
    simp [he]

theorem classifyStep_matches_shape (extract : String → String → List String)
    (content et : String) (r : ClassificationResult) (p : PolicyRule)
    (h : ruleMatches extract content et p = true) :
    (classifyStep extract content et r p).severity =
        (if p.action = "block" || p.action = "quarantine" then "critical"
         else if p.action = "alert" && r.severity ≠ "critical" then "high"
         else r.severity) ∧
      (classifyStep extract content et r p).suggestedAction =
        (if p.action = "block" || p.action = "quarantine" then p.action
         else if p.action = "alert" && r.severity ≠ "critical" then "alerted"
         else r.suggestedAction) := by
  unfold classifyStep
  unfold ruleMatches at h
  simp only [Bool.and_eq_true] at h
  obtain ⟨⟨he, hm⟩, hc⟩ := h
  simp only [he, hm, Bool.not_true, Bool.false_eq_true, if_false]
  simp only [hc]
  simp

theorem classify_fold_critical (extract : String → String → List String)
    (content et : String) (rules : List PolicyRule) :
    ∀ r : ClassificationResult, r.severity = "critical" →
    (rules.foldl (classifyStep extract content et) r).suggestedAction =
      (match (rules.filter (fun p =>
          ruleMatches extract content et p && isEnforcing p)).getLast? with
       | some p => p.action
       | none => r.suggestedAction) ∧
    (rules.foldl (classifyStep extract content et) r).severity = "critical" := by
  induction rules with
  | nil => intro r hr; exact ⟨rfl, hr⟩
  | cons p rest ih =>
    intro r hr
    simp only [List.foldl_cons, List.filter_cons]
    by_cases hmatch : ruleMatches extract content et p = true
    · have hs := classifyStep_matches_shape extract content et r p hmatch
      by_cases henf : isEnforcing p = true
      · simp only [hmatch, henf, Bool.and_self, if_true]
        unfold isEnforcing at henf
        have hcrit : (classifyStep extract content et r p).severity = "critical" := by
          rw [hs.1, if_pos henf]
        have hact : (classifyStep extract content et r p).suggestedAction = p.action := by
          rw [hs.2, if_pos henf]
        obtain ⟨h1, h2⟩ := ih (classifyStep extract content et r p) hcrit
        refine ⟨?_, h2⟩
        rw [h1, hact]
        cases hfl : rest.filter (fun p =>
            ruleMatches extract content et p && isEnforcing p) with
        | nil => simp
        | cons q t =>
          have hne : q :: t ≠ [] := by simp
          obtain ⟨x, hx⟩ := Option.isSome_iff_exists.mp (List.getLast?_isSome.mpr hne)
          rw [List.getLast?_cons_cons, hx]
      · simp only [Bool.not_eq_true] at henf
        simp only [hmatch, henf, Bool.and_false, Bool.false_eq_true, if_false]
        unfold isEnforcing at henf
        have hcrit : (classifyStep extract content et r p).severity = "critical" := by
          rw [hs.1, if_neg (by simp_all), if_neg (by simp [hr]), hr]
        have hact : (classifyStep extract content et r p).suggestedAction =
            r.suggestedAction := by
          rw [hs.2, if_neg (by simp_all), if_neg (by simp [hr])]
        obtain ⟨h1, h2⟩ := ih (classifyStep extract content et r p) hcrit
        rw [h1, hact]
        exact ⟨rfl, h2⟩
    · simp only [Bool.not_eq_true] at hmatch
      simp only [hmatch, Bool.false_and, Bool.false_eq_true, if_false]
      have hs := classifyStep_not_matches extract content et r p hmatch
      have hcrit : (classifyStep extract content et r p).severity = "critical" := by
        rw [hs.1, hr]
      obtain ⟨h1, h2⟩ := ih (classifyStep extract content et r p) hcrit
      rw [h1, hs.2]
      exact ⟨rfl, h2⟩

theorem classify_fold_noncritical (extract : String → String → List String)
    (content et : String) (rules : List PolicyRule) :
    ∀ r : ClassificationResult, r.severity ≠ "critical" →
    (rules.foldl (classifyStep extract content et) r).suggestedAction =
      (match (rules.filter (fun p =>
          ruleMatches extract content et p && isEnforcing p)).getLast? with
       | some p => p.action
       | none =>
         if rules.any (fun p =>
             ruleMatches extract content et p && p.action = "alert") then "alerted"
         else r.suggestedAction) := by
  induction rules with
  | nil => intro r _; rfl
  | cons p rest ih =>
    intro r hr
    simp only [List.foldl_cons, List.filter_cons, List.any_cons]
    by_cases hmatch : ruleMatches extract content et p = true
    · have hs := classifyStep_matches_shape extract content et r p hmatch
      by_cases henf : isEnforcing p = true
      · simp only [hmatch, henf, Bool.and_self, if_true]
        unfold isEnforcing at henf
        have hcrit : (classifyStep extract content et r p).severity = "critical" := by
          rw [hs.1, if_pos henf]
        have hact : (classifyStep extract content et r p).suggestedAction = p.action := by
          rw [hs.2, if_pos henf]
        obtain ⟨h1, _⟩ := classify_fold_critical extract content et rest
          (classifyStep extract content et r p) hcrit
        rw [h1, hact]
        cases hfl : rest.filter (fun p =>
            ruleMatches extract content et p && isEnforcing p) with
        | nil => simp
        | cons q t =>
          have hne : q :: t ≠ [] := by simp
          obtain ⟨x, hx⟩ := Option.isSome_iff_exists.mp (List.getLast?_isSome.mpr hne)
          rw [List.getLast?_cons_cons, hx]
      · simp only [Bool.not_eq_true] at henf
        simp only [hmatch, henf, Bool.and_false, Bool.false_eq_true, if_false,
          Bool.true_and]
        unfold isEnforcing at henf
        by_cases hal : p.action = "alert"
        · have hsev : (classifyStep extract content et r p).severity = "high" := by
            rw [hs.1, if_neg (by simp_all), if_pos (by simp [hal, hr])]
          have hact : (classifyStep extract content et r p).suggestedAction = "alerted" := by
            rw [hs.2, if_neg (by simp_all), if_pos (by simp [hal, hr])]
          have h1 := ih (classifyStep extract content et r p) (by rw [hsev]; decide)
          rw [h1, hact]
          simp [hmatch, hal, ite_self]
        · have hsev : (classifyStep extract content et r p).severity = r.severity := by
            rw [hs.1, if_neg (by simp_all), if_neg (by simp [hal])]
          have hact : (classifyStep extract content et r p).suggestedAction =
              r.suggestedAction := by
            rw [hs.2, if_neg (by simp_all), if_neg (by simp [hal])]
          have h1 := ih (classifyStep extract content et r p) (by rw [hsev]; exact hr)
          rw [h1, hact]
          simp [hal]
    · simp only [Bool.not_eq_true] at hmatch
      simp only [hmatch, Bool.false_and, Bool.false_eq_true, if_false, Bool.false_or]
      have hs := classifyStep_not_matches extract content et r p hmatch
      have h1 := ih (classifyStep extract content et r p) (by rw [hs.1]; exact hr)
      rw [h1, hs.2]

/-- C5, corrected.  The suggested action of a classifier run is NOT the
strongest matched action: each matched `block`/`quarantine` rule overwrites
`suggestedAction`, so the LAST matched enforcing rule in rule order wins
(a later `quarantine` match overrides an earlier `block` match); when no
enforcing rule matches, a matched `alert` rule yields `alerted`, and
otherwise the initial `logged` stands.  Stated for every detector
function, so it covers the full detector catalogue of the source. -/
theorem C5_last_enforcing_match_wins (extract : String → String → List String)
    (content eventType : String) (rules : List PolicyRule) :
    (Classify extract content rules eventType).suggestedAction =
      lastEnforcedAction extract content eventType rules := by
  unfold Classify lastEnforcedAction
  exact classify_fold_noncritical extract content eventType rules {} (by decide)

/-- C5 counterexample: with the embedded `ssn` detector, a run in which a
`block` rule matches first and a `quarantine` rule matches second suggests
`quarantine`, not the stronger `block` required by the claim. -/
theorem C5_counterexample :
    (Classify ExtractDataTypeModel "123-45-6789"
        [{ policyId := "p1", action := "block", dataTypes := ["ssn"] },
         { policyId := "p2", action := "quarantine", dataTypes := ["ssn"] }]
        "file_modified").suggestedAction = "quarantine" ∧
      (Classify ExtractDataTypeModel "123-45-6789"
        [{ policyId := "p1", action := "block", dataTypes := ["ssn"] },
         { policyId := "p2", action := "quarantine", dataTypes := ["ssn"] }]
        "file_modified").matchedPolicies = ["p1", "p2"] ∧
      ("quarantine" : String) ≠ "block" := by
  refine ⟨by decide, by decide, by decide⟩

/-! ### Baseline store `originalFileContents` and its cleanup (claim C4)

`originalFileContents` is a `std::map<std::string, std::string>` from
absolute path to captured content: an association list kept sorted by key,
mirroring the map's key order.  `HandleFileEvent` inserts with
`originalFileContents[filePath] = content` on `file_created`;
`CleanupOldOriginalContents` is defined in the source but has no call
site anywhere in the program. -/

/-- The baseline store. -/
abbrev BaselineStore := List (String × String)

/-- `originalFileContents[p] = c`: sorted-map assignment. -/
def originalContentsStore (m : BaselineStore) (p c : String) : BaselineStore :=
  match m with
  | [] => [(p, c)]
  | (k0, v0) :: t =>
    if p = k0 then (p, c) :: t
    else if p < k0 then (p, c) :: (k0, v0) :: t
    else (k0, v0) :: originalContentsStore t p c

/-- `originalFileContents.find(p)`. -/
def originalContentsFind (m : BaselineStore) (p : String) : Option String :=
  (m.find? (fun e => e.1 = p)).map (·.2)

/-- `originalFileContents.erase(p)`. -/
def originalContentsErase (m : BaselineStore) (p : String) : BaselineStore :=
  m.filter (fun e => e.1 ≠ p)

/-- `DLPAgent::CleanupOldOriginalContents`: when the store exceeds
`MAX_STORED_FILES = 1000` entries, erase `size - MAX_STORED_FILES / 2`
entries starting from `begin()` — i.e. drop the entries first in KEY
(path) order.  The function is dead code: the agent never calls it. -/
def CleanupOldOriginalContents (m : BaselineStore) : BaselineStore :=
  if m.length > 1000 then m.drop (m.length - 1000 / 2) else m

/-- Distinct path supply for reachability arguments: `n` copies of `a`. -/
def pathOfNat (n : Nat) : String :=
  String.mk (List.replicate n 'a')

/-- Store reached from empty by the `file_created` baseline insertion of
`HandleFileEvent`, applied for `n` distinct paths (no other operation in
the program removes entries except a successful restore of that path). -/
def buildStore : Nat → BaselineStore
  | 0 => []
  | n + 1 => originalContentsStore (buildStore n) (pathOfNat n) "c"

theorem mem_originalContentsStore {m : BaselineStore} {p c : String} {e : String × String}
    (h : e ∈ originalContentsStore m p c) : e = (p, c) ∨ e ∈ m := by
  induction m with
  | nil => simpa [originalContentsStore] using h
  | cons hd t ih =>
    unfold originalContentsStore at h
    by_cases h1 : p = hd.1
    · simp only [h1, if_pos rfl] at h
      rcases List.mem_cons.mp h with h2 | h2
      · exact Or.inl (by rw [h1]; exact h2)
      · exact Or.inr (List.mem_cons_of_mem _ h2)
    · rw [if_neg h1] at h
      by_cases h2 : p < hd.1
      · rw [if_pos h2] at h
        rcases List.mem_cons.mp h with h3 | h3
        · exact Or.inl h3
        · exact Or.inr h3
      · rw [if_neg h2] at h
        rcases List.mem_cons.mp h with h3 | h3
        · exact Or.inr (by simp [h3])
        · rcases ih h3 with h4 | h4
          · exact Or.inl h4
          · exact Or.inr (List.mem_cons_of_mem _ h4)

theorem length_originalContentsStore_of_fresh {m : BaselineStore} {p c : String}
    (h : ∀ e ∈ m, e.1 ≠ p) :
    (originalContentsStore m p c).length = m.length + 1 := by
  induction m with
  | nil => rfl
  | cons hd t ih =>
    unfold originalContentsStore
    have hne : p ≠ hd.1 := fun hq => h hd (List.mem_cons_self hd t) hq.symm
    rw [if_neg hne]
    by_cases h2 : p < hd.1
    · rw [if_pos h2]; rfl
    · rw [if_neg h2]
      simp only [List.length_cons]
      rw [ih (fun e he => h e (List.mem_cons_of_mem _ he))]

theorem pathOfNat_injective : Function.Injective pathOfNat := by
  intro i j h
  have : List.replicate i 'a' = List.replicate j 'a' := congrArg String.data h
  have hlen := congrArg List.length this
  simpa using hlen

theorem buildStore_keys {n : Nat} {e : String × String} (h : e ∈ buildStore n) :
    ∃ k < n, e.1 = pathOfNat k := by
  induction n with
  | zero => simp [buildStore] at h
  | succ n ih =>
    rcases mem_originalContentsStore h with h1 | h1
    · exact ⟨n, Nat.lt_succ_self n, by rw [h1]⟩
    · obtain ⟨k, hk, hke⟩ := ih h1
      exact ⟨k, Nat.lt_succ_of_lt hk, hke⟩

theorem buildStore_length (n : Nat) : (buildStore n).length = n := by
  induction n with
  | zero => rfl
  | succ n ih =>
    unfold buildStore
    rw [length_originalContentsStore_of_fresh, ih]
    intro e he hq
    obtain ⟨k, hk, hke⟩ := buildStore_keys he
    have : k = n := pathOfNat_injective (hke.symm.trans hq)
    omega

/-- C4, corrected.  The baseline store is NOT bounded by 1000 entries:
the `file_created` insertion never evicts, `CleanupOldOriginalContents`
is never called by the agent, and the store reached after `n` distinct
insertions has exactly `n` entries for every `n` (in particular more than
1000).  Moreover the cleanup routine, were it invoked, would not evict
oldest-by-capture-time entries: the store records no capture time at all,
and the routine erases from `begin()` of a path-keyed `std::map`, keeping
a suffix in path order (the lexicographically largest paths) and trimming
an over-full store all the way down to 500, not 1000. -/
theorem C4_baseline_store_unbounded :
    (∀ n : Nat, (buildStore n).length = n) ∧
      (∀ m : BaselineStore, 1000 < m.length →
        (CleanupOldOriginalContents m).length = 500 ∧
          CleanupOldOriginalContents m <:+ m) ∧
      (∀ m : BaselineStore, m.length ≤ 1000 → CleanupOldOriginalContents m = m) := by
  refine ⟨buildStore_length, fun m hm => ?_, fun m hm => ?_⟩
  · unfold CleanupOldOriginalContents
    rw [if_pos (by omega)]
    refine ⟨?_, List.drop_suffix _ _⟩
    rw [List.length_drop]
    omega
  · unfold CleanupOldOriginalContents
    rw [if_neg (by omega)]

/-- Witness for C4: the bound fails at the concrete store of 1001 distinct
baselines, and cleanup of that store would keep 500 entries. -/
theorem C4_baseline_store_unbounded_witness :
    (buildStore 1001).length = 1001 ∧
      (CleanupOldOriginalContents (buildStore 1001)).length = 500 := by
  have h := C4_baseline_store_unbounded
  refine ⟨h.1 1001, (h.2.1 (buildStore 1001) ?_).1⟩
  rw [h.1 1001]
  norm_num

/-- C4 counterexample: a store with 1001 entries is reachable through the
agent's own baseline insertions while `CleanupOldOriginalContents` has no
call site, so the store does not hold at most 1000 entries at all times. -/
theorem C4_counterexample :
    ¬((buildStore 1001).length ≤ 1000) := by
  rw [buildStore_length]
  omega

/-! ### Agent state, event envelopes, and the outbound gate -/

/-- `USBFileTransferPolicy` from agent.cpp. -/
structure USBFileTransferPolicy where
  policyId : String := ""
  name : String := ""
  action : String := ""
  severity : String := ""
  monitoredPaths : List String := []
  quarantinePath : String := ""
  enabled : Bool := true
  deriving Repr, DecidableEq

/-- Outbound event envelope: the JSON fields the claims refer to
(`event_type`, `event_subtype`, `severity`, `action`, file identity and
matched policy ids); identity fields such as `event_id`/`agent_id` and
timestamps are generated data with no bearing on any claim. -/
structure Envelope where
  eventType : String := ""
  eventSubtype : String := ""
  severity : String := ""
  action : String := ""
  filePath : String := ""
  fileName : String := ""
  matchedPolicies : List String := []
  deriving Repr, DecidableEq

/-- The mutable members of `DLPAgent` the embedded handlers touch, plus
the two configuration values they read (`config.GetQuarantine().folder`
and `config.GetClassification().maxFileSizeMB`). -/
structure AgentState where
  hasFilePolices : Bool := false
  hasClipboardPolicies : Bool := false
  hasUsbDevicePolicies : Bool := false
  hasUsbTransferPolicies : Bool := false
  allowEvents : Bool := false
  usbBlockingActive : Bool := false
  activePolicyVersion : String := ""
  filePolicies : List PolicyRule := []
  clipboardPolicies : List PolicyRule := []
  usbPolicies : List PolicyRule := []
  usbTransferPolicies : List USBFileTransferPolicy := []
  monitoredDirectories : List String := []
  filesBeingQuarantined : List String := []
  recentlyRestored : List String := []
  originalFileContents : BaselineStore := []
  recentEvents : List ((String × String) × Nat) := []
  quarantineFolder : String := "C:\\Quarantine"
  maxFileSizeMB : Nat := 10
  deriving Repr, DecidableEq

/-- `DLPAgent::SendEvent`: the envelope is dropped (never posted) when
`allowEvents` is false; otherwise it is handed to the transport. -/
def SendEvent (st : AgentState) (e : Envelope) : Option Envelope :=
  if !st.allowEvents then none else some e

/-- Envelopes delivered by one `SendEvent` call site. -/
def emitted (st : AgentState) (e : Envelope) : List Envelope :=
  match SendEvent st e with
  | some x => [x]
  | none => []

/-- `std::set<std::string>::insert` on a duplicate-free list. -/
def setInsert (l : List String) (p : String) : List String :=
  if p ∈ l then l else l ++ [p]

/-- `std::set<std::string>::erase`. -/
def setErase (l : List String) (p : String) : List String :=
  l.filter (· ≠ p)

/-- `NormalizeFilesystemPath`: environment-variable expansion is the
identity in this embedding (no `%VAR%` template appears in any input
below) and forward slashes become backslashes. -/
def NormalizeFilesystemPath (path : String) : String :=
  String.mk (path.data.map (fun c => if c = '/' then '\\' else c))

/-- `fs::path(p).filename()`: the component after the last separator. -/
def pathFilename (p : String) : String :=
  String.mk (p.data.foldl (fun acc c => if c = '\\' || c = '/' then [] else acc ++ [c]) [])

/-! ### `DLPAgent::HandleFileEvent` and the restore scheduler -/

/-- Which restore lambda a quarantine schedules: the create/modify one
(line 4411), or the deletion one (line 4260) which captured the baseline
content by value. -/
inductive RestoreKind where
  | onModify : RestoreKind
  | onDelete : (captured : String) → RestoreKind
  deriving Repr, DecidableEq

/-- A scheduled restoration: the detached thread sleeping `delayMinutes`
and then restoring `origPath` from `vaultPath`. -/
structure RestoreTask where
  delayMinutes : Nat
  vaultPath : String
  origPath : String
  kind : RestoreKind
  deriving Repr, DecidableEq

/-- Result of one `HandleFileEvent` call: the state and filesystem after
it returns, the envelopes actually delivered through `SendEvent`, and the
restore tasks whose threads it spawned. -/
structure FileEventResult where
  st : AgentState
  fs : Fs
  sent : List Envelope
  restores : List RestoreTask
  deriving Repr, DecidableEq

/-- Filter computing `relevantPolicies` (lines 3954-4000): the policy
must have a monitored path that is a string prefix of the file path, and
must monitor the event subtype (an empty `monitoredEvents` counts as
monitor-all when the rule has any other configuration). -/
def relevantPoliciesFor (policies : List PolicyRule) (filePath eventSubtype : String) :
    List PolicyRule :=
  policies.filter (fun policy =>
    (policy.monitoredPaths.any (fun pp =>
      (NormalizeFilesystemPath pp).data.isPrefixOf filePath.data)) &&
    (if policy.monitoredEvents.isEmpty then
      !policy.dataTypes.isEmpty || !policy.monitoredPaths.isEmpty ||
        !policy.fileExtensions.isEmpty
    else policy.monitoredEvents.any (fun e =>
      eventSubtype = e || e = "all" || e = "*")))

/-- The forced-quarantine fix-up for monitored deletions (lines
4042-4058 and the identical block at 4115-4126). -/
def deletionFixup (relevant : List PolicyRule) (cls : ClassificationResult) :
    ClassificationResult :=
  if !relevant.isEmpty && cls.labels.isEmpty && cls.matchedPolicies.isEmpty then
    { cls with
      severity :=
        if relevant.any (fun p => p.action = "quarantine" || p.action = "block")
        then "critical" else "high"
      suggestedAction := "quarantine"
      labels := cls.labels ++ ["MONITORED_DELETION"]
      matchedPolicies := cls.matchedPolicies ++ relevant.map (·.policyId) }
  else cls

/-- Redaction test of the summary builder (lines 4147-4152). -/
def shouldRedactType (dataType : String) : Bool :=
  let lowerType := ToLower dataType
  (strFind lowerType "password").isSome || (strFind lowerType "api_key").isSome ||
    (strFind lowerType "secret").isSome || (strFind lowerType "token").isSome ||
    (strFind lowerType "private_key").isSome

/-- One example value in the summary (redacted or truncated at 40). -/
def exampleValue (redact : Bool) (v : String) : String :=
  if redact then "[REDACTED]"
  else if v.length > 40 then strSubstr v 0 37 ++ "..." else v

/-- The detected-content summary loop (lines 4133-4175): returns the
summary text, the listed data types and `totalMatches`. -/
def buildDetectedSummary (detected : List (String × List String)) :
    String × List String × Nat :=
  detected.foldl
    (fun acc pair =>
      if pair.2.isEmpty then acc
      else
        let redact := shouldRedactType pair.1
        (acc.1 ++ "\n   " ++ pair.1 ++ ": " ++ toString pair.2.length ++ " found\n"
            ++ "    Values: "
            ++ String.intercalate ", " ((pair.2.take 3).map (exampleValue redact))
            ++ (if pair.2.length > 3
                then " ... (+" ++ toString (pair.2.length - 3) ++ " more)" else "")
            ++ "\n",
          acc.2.1 ++ [pair.1],
          acc.2.2 + pair.2.length))
    ("", [], 0)

/-- The 2-second deduplication test (lines 3921-3935). -/
def recentDup (recentEvents : List ((String × String) × Nat))
    (key : String × String) (now : Nat) : Bool :=
  match recentEvents.find? (fun e => e.1 = key) with
  | some e => now - e.2 < 2
  | none => false

/-- Record the event in the dedup map (`recentEvents[eventKey] = now`). -/
def recentEventsRecord (m : List ((String × String) × Nat))
    (key : String × String) (now : Nat) : List ((String × String) × Nat) :=
  if m.any (fun e => e.1 = key) then m.map (fun e => if e.1 = key then (key, now) else e)
  else m ++ [(key, now)]

/-- Envelope built at lines 4564-4586 (fields relevant to the claims). -/
def fileEnvelope (eventSubtype severity detectedAction filePath fileName : String)
    (matched : List String) : Envelope :=
  { eventType := "file", eventSubtype := eventSubtype, severity := severity,
    action := detectedAction, filePath := filePath, fileName := fileName,
    matchedPolicies := matched }

/-- The classification stage of `HandleFileEvent` (lines 4011-4131): for
a deletion, classify the stored baseline (or force-quarantine an
unclassified monitored deletion); otherwise classify the current content
when under the size cap, else report `LARGE_FILE`. -/
def fileEventClassificationOf (extract : String → String → List String)
    (baselines : BaselineStore) (fs : Fs) (filePath eventSubtype : String)
    (relevant : List PolicyRule) (maxFileSizeMB : Nat) : ClassificationResult :=
  if eventSubtype = "file_deleted" then
    match originalContentsFind baselines filePath with
    | some c => deletionFixup relevant (Classify extract c relevant eventSubtype)
    | none => deletionFixup relevant {}
  else if ((fsRead fs filePath).getD "").length < maxFileSizeMB * 1024 * 1024 then
    Classify extract (ReadFileContent fs filePath) relevant eventSubtype
  else { labels := ["LARGE_FILE"], severity := "low", suggestedAction := "logged" }

/-- The enforcement stage of `HandleFileEvent` (lines 4113-4599): the
empty-classification and empty-summary skips, the quarantine / block /
log decision, the filesystem action, and the envelope.  `st` already
carries the baseline captured for this event. -/
def fileEventEnforce (st : AgentState) (fs : Fs)
    (filePath eventSubtype fileName : String) (now : Nat)
    (cls : ClassificationResult) : FileEventResult :=
  if cls.labels.isEmpty && cls.matchedPolicies.isEmpty then ⟨st, fs, [], []⟩
  else
    let summary := buildDetectedSummary cls.detectedContent
    if summary.1.isEmpty || summary.2.2 = 0 then ⟨st, fs, [], []⟩
    else
      let severity := cls.severity
      let shouldEnforceAction := !cls.matchedPolicies.isEmpty
      let mkResult := fun (st3 : AgentState) (fs2 : Fs) (detectedAction : String)
          (tasks : List RestoreTask) =>
        (⟨st3, fs2,
          emitted st (fileEnvelope eventSubtype severity detectedAction
            filePath fileName cls.matchedPolicies), tasks⟩ : FileEventResult)
      if cls.suggestedAction = "quarantine" && shouldEnforceAction then
        let isDeleteEvent := eventSubtype = "file_deleted"
        let isRecentlyRestored := filePath ∈ st.recentlyRestored
        if isDeleteEvent && !isRecentlyRestored then
          match originalContentsFind st.originalFileContents filePath with
          | some oc =>
            if !oc.isEmpty then
              let st3 := { st with
                filesBeingQuarantined := setInsert st.filesBeingQuarantined filePath }
              let vaultPath :=
                st.quarantineFolder ++ "\\" ++ toString now ++ "_" ++ fileName
              mkResult st3 (fsWrite fs vaultPath oc) "quarantined_on_delete"
                [⟨10, vaultPath, filePath, RestoreKind.onDelete oc⟩]
            else mkResult st fs "quarantine" []
          | none => mkResult st fs "quarantine" []
        else if !isRecentlyRestored then
          let st3 := { st with
            filesBeingQuarantined := setInsert st.filesBeingQuarantined filePath }
          let vaultPath :=
            st.quarantineFolder ++ "\\" ++ toString now ++ "_" ++ fileName
          mkResult st3 (fsRename fs filePath vaultPath) "quarantined"
            [⟨10, vaultPath, filePath, RestoreKind.onModify⟩]
        else mkResult st fs "logged" []
      else if cls.suggestedAction = "quarantine" && !shouldEnforceAction then
        mkResult st fs "logged" []
      else if cls.suggestedAction = "block" && shouldEnforceAction then
        mkResult st (fsRemove fs filePath) "deleted" []
      else if cls.suggestedAction = "block" && !shouldEnforceAction then
        mkResult st fs "logged" []
      else if !cls.labels.isEmpty then mkResult st fs "logged" []
      else ⟨st, fs, [], []⟩

/-- `DLPAgent::HandleFileEvent` (lines 3898-4606).  `now` stands for both
the dedup clock reading and the `system_clock` count used in the vault
file name.  Filesystem reads/writes that the source wraps in try/catch
always succeed in the model (the filesystem is total on existing paths);
the `catch` branches for unreadable files are therefore not reachable.
The two detached threads a quarantine spawns (restore + grace cleanup)
are returned as `RestoreTask`s; `runRestoreTask` and `graceCleanup` below
embed their bodies. -/
def HandleFileEvent (extract : String → String → List String) (st : AgentState)
    (fs : Fs) (filePath eventSubtype : String) (now : Nat) : FileEventResult :=
  if !st.allowEvents || !st.hasFilePolices then ⟨st, fs, [], []⟩
  else if filePath ∈ st.filesBeingQuarantined then ⟨st, fs, [], []⟩
  else
    let isDeleteEvent := eventSubtype = "file_deleted"
    if !isDeleteEvent && !fsExists fs filePath then ⟨st, fs, [], []⟩
    else if recentDup st.recentEvents (filePath, eventSubtype) now then ⟨st, fs, [], []⟩
    else
      let st1 := { st with
        recentEvents := recentEventsRecord st.recentEvents (filePath, eventSubtype) now }
      let fileName := pathFilename filePath
      let relevantPolicies := relevantPoliciesFor st.filePolicies filePath eventSubtype
      if relevantPolicies.isEmpty then ⟨st1, fs, [], []⟩
      else
        let underCap :=
          ((fsRead fs filePath).getD "").length < st.maxFileSizeMB * 1024 * 1024
        let st2 :=
          if !isDeleteEvent && underCap && eventSubtype = "file_created" then
            { st1 with
              originalFileContents := originalContentsStore st1.originalFileContents
                filePath (ReadFileContent fs filePath) }
          else st1
        let cls := fileEventClassificationOf extract st1.originalFileContents fs
          filePath eventSubtype relevantPolicies st.maxFileSizeMB
        fileEventEnforce st2 fs filePath eventSubtype fileName now cls

/-- Body of a scheduled restore thread once its sleep elapses (lines
4415-4513 for create/modify, 4264-4330 for deletion). -/
def runRestoreTask (st : AgentState) (fs : Fs) (task : RestoreTask) :
    AgentState × Fs :=
  match task.kind with
  | RestoreKind.onDelete captured =>
    let st1 := { st with
      filesBeingQuarantined := setInsert st.filesBeingQuarantined task.origPath }
    let fs1 := fsWrite fs task.origPath captured
    let fs2 := if fsExists fs1 task.vaultPath then fsRemove fs1 task.vaultPath else fs1
    ({ st1 with
        originalFileContents := originalContentsErase st1.originalFileContents task.origPath
        recentlyRestored := setInsert st1.recentlyRestored task.origPath }, fs2)
  | RestoreKind.onModify =>
    match originalContentsFind st.originalFileContents task.origPath with
    | some oc =>
      if !oc.isEmpty then
        let fs1 := fsWrite fs task.origPath oc
        let fs2 := if fsExists fs1 task.vaultPath then fsRemove fs1 task.vaultPath else fs1
        ({ st with
            originalFileContents := originalContentsErase st.originalFileContents task.origPath
            recentlyRestored := setInsert st.recentlyRestored task.origPath }, fs2)
      else
        let fs1 :=
          if fsExists fs task.vaultPath && !fsExists fs task.origPath then
            fsRename fs task.vaultPath task.origPath
          else fs
        ({ st with recentlyRestored := setInsert st.recentlyRestored task.origPath }, fs1)
    | none =>
      let fs1 :=
        if fsExists fs task.vaultPath && !fsExists fs task.origPath then
          fsRename fs task.vaultPath task.origPath
        else fs
      ({ st with recentlyRestored := setInsert st.recentlyRestored task.origPath }, fs1)

/-- Body of the 30-second grace cleanup thread (lines 4501-4513): clears
the being-quarantined marker and the grace marker together. -/
def graceCleanup (st : AgentState) (p : String) : AgentState :=
  { st with
    filesBeingQuarantined := setErase st.filesBeingQuarantined p
    recentlyRestored := setErase st.recentlyRestored p }

/-! ### Small lemmas about the filesystem and store operations -/

theorem find?_filter_ne (fs : Fs) (p q : String) (h : q ≠ p) :
    (fs.filter (fun e => e.1 ≠ p)).find? (fun e => e.1 = q) =
      fs.find? (fun e => e.1 = q) := by
  induction fs with
  | nil => rfl
  | cons hd t ih =>
    by_cases h1 : hd.1 = p
    · have hg : decide (hd.1 ≠ p) = false := by simp [h1]
      have hf : decide (hd.1 = q) = false := by
        have hn : ¬(hd.1 = q) := fun hq => h (hq.symm.trans h1)
        simp [hn]
      simp only [List.filter_cons, List.find?_cons, hg, hf, Bool.false_eq_true, if_false]
      exact ih
    · have hg : decide (hd.1 ≠ p) = true := by simp [h1]
      simp only [List.filter_cons, List.find?_cons, hg, if_true]
      by_cases h2 : hd.1 = q
      · simp [List.find?_cons, h2]
      · have hf : decide (hd.1 = q) = false := by simp [h2]
        simp only [List.find?_cons, hf]
        exact ih

theorem find?_filter_self (fs : Fs) (p : String) :
    (fs.filter (fun e => e.1 ≠ p)).find? (fun e => e.1 = p) = none := by
  induction fs with
  | nil => rfl
  | cons hd t ih =>
    by_cases h1 : hd.1 = p
    · have hg : decide (hd.1 ≠ p) = false := by simp [h1]
      simp only [List.filter_cons, hg, Bool.false_eq_true, if_false]
      exact ih
    · have hg : decide (hd.1 ≠ p) = true := by simp [h1]
      have hf : decide (hd.1 = p) = false := by simp [h1]
      simp only [List.filter_cons, hg, if_true, List.find?_cons, hf]
      exact ih

theorem fsRead_fsWrite_self (fs : Fs) (p c : String) :
    fsRead (fsWrite fs p c) p = some c := by
  simp [fsRead, fsWrite, List.find?_cons]

theorem fsRead_fsWrite_ne (fs : Fs) (p c q : String) (h : q ≠ p) :
    fsRead (fsWrite fs p c) q = fsRead fs q := by
  have hf : decide (p = q) = false := by
    have : ¬(p = q) := fun hq => h hq.symm
    simp [this]
  simp only [fsRead, fsWrite, List.find?_cons, hf]
  rw [find?_filter_ne fs p q h]

theorem fsRead_fsRemove_self (fs : Fs) (p : String) :
    fsRead (fsRemove fs p) p = none := by
  simp only [fsRead, fsRemove, find?_filter_self]
  rfl

theorem fsRead_fsRemove_ne (fs : Fs) (p q : String) (h : q ≠ p) :
    fsRead (fsRemove fs p) q = fsRead fs q := by
  simp only [fsRead, fsRemove]
  rw [find?_filter_ne fs p q h]

theorem fsExists_fsWrite_self (fs : Fs) (p c : String) :
    fsExists (fsWrite fs p c) p = true := by
  simp [fsExists, fsRead_fsWrite_self]

theorem fsExists_fsRemove_self (fs : Fs) (p : String) :
    fsExists (fsRemove fs p) p = false := by
  simp [fsExists, fsRead_fsRemove_self]

theorem fsRename_eq (fs : Fs) (src dst c : String) (h : fsRead fs src = some c) :
    fsRename fs src dst = fsWrite (fsRemove fs src) dst c := by
  unfold fsRename
  rw [h]

theorem fsRead_fsRename_dst (fs : Fs) (src dst c : String) (h : fsRead fs src = some c) :
    fsRead (fsRename fs src dst) dst = some c := by
  rw [fsRename_eq fs src dst c h, fsRead_fsWrite_self]

theorem fsRead_fsRename_src (fs : Fs) (src dst c : String) (h : fsRead fs src = some c)
    (hne : src ≠ dst) : fsRead (fsRename fs src dst) src = none := by
  rw [fsRename_eq fs src dst c h, fsRead_fsWrite_ne _ _ _ _ hne, fsRead_fsRemove_self]

theorem originalContentsFind_store_self (m : BaselineStore) (p c : String) :
    originalContentsFind (originalContentsStore m p c) p = some c := by
  induction m with
  | nil => simp [originalContentsStore, originalContentsFind, List.find?_cons]
  | cons hd t ih =>
    unfold originalContentsStore
    by_cases h1 : p = hd.1
    · simp [h1, originalContentsFind, List.find?_cons]
    · rw [if_neg h1]
      by_cases h2 : p < hd.1
      · simp [h2, originalContentsFind, List.find?_cons]
      · rw [if_neg h2]
        have hf : decide (hd.1 = p) = false := by
          have : ¬(hd.1 = p) := fun hq => h1 hq.symm
          simp [this]
        simp only [originalContentsFind, List.find?_cons, hf] at ih ⊢
        exact ih

theorem originalContentsFind_erase_self (m : BaselineStore) (p : String) :
    originalContentsFind (originalContentsErase m p) p = none := by
  simp only [originalContentsFind, originalContentsErase, find?_filter_self]
  rfl

theorem mem_setInsert_self (l : List String) (p : String) :
    p ∈ setInsert l p := by
  unfold setInsert
  by_cases h : p ∈ l
  · rwa [if_pos h]
  · rw [if_neg h]
    simp

/-! ### Characterization of a successful create/modify quarantine -/

/-- The classification `HandleFileEvent` computes for a non-delete event
whose file is under the size cap. -/
def fileEventCls (extract : String → String → List String) (st : AgentState)
    (fs : Fs) (filePath eventSubtype : String) : ClassificationResult :=
  Classify extract (ReadFileContent fs filePath)
    (relevantPoliciesFor st.filePolicies filePath eventSubtype) eventSubtype

/-- The vault path a quarantine at clock `now` uses:
`{quarantine folder}\{timestamp}_{filename}`. -/
def vaultPathFor (st : AgentState) (filePath : String) (now : Nat) : String :=
  st.quarantineFolder ++ "\\" ++ toString now ++ "_" ++ pathFilename filePath

/-- Premises under which `HandleFileEvent` performs the normal (rename)
quarantine on a create/modify event: events allowed, file policies
active, path not already being quarantined, event not deduplicated, some
rule relevant, file present and under the size cap, the classification
suggesting `quarantine` with matched policies and a non-empty detection
summary, and the path not inside the grace window. -/
structure ModifyQuarantineRun (extract : String → String → List String)
    (st : AgentState) (fs : Fs) (filePath eventSubtype : String) (now : Nat) : Prop where
  allow : st.allowEvents = true
  hasFile : st.hasFilePolices = true
  notMarked : filePath ∉ st.filesBeingQuarantined
  subtypeOk : eventSubtype = "file_created" ∨ eventSubtype = "file_modified"
  existsFile : fsExists fs filePath = true
  noDup : recentDup st.recentEvents (filePath, eventSubtype) now = false
  relNonempty : relevantPoliciesFor st.filePolicies filePath eventSubtype ≠ []
  underCap : ((fsRead fs filePath).getD "").length < st.maxFileSizeMB * 1024 * 1024
  suggestsQuarantine :
    (fileEventCls extract st fs filePath eventSubtype).suggestedAction = "quarantine"
  matchedNonempty :
    (fileEventCls extract st fs filePath eventSubtype).matchedPolicies ≠ []
  summaryNonempty :
    (buildDetectedSummary
      (fileEventCls extract st fs filePath eventSubtype).detectedContent).1 ≠ ""
  totalPos :
    (buildDetectedSummary
      (fileEventCls extract st fs filePath eventSubtype).detectedContent).2.2 ≠ 0
  notGrace : filePath ∉ st.recentlyRestored

/-- Under the premises above, `HandleFileEvent` renames the file into the
vault under the timestamp-prefixed name, schedules the 10-minute
create/modify restore, and emits one envelope with action `quarantined`. -/
theorem handleFileEvent_modify_quarantine (extract : String → String → List String)
    (st : AgentState) (fs : Fs) (filePath eventSubtype : String) (now : Nat)
    (h : ModifyQuarantineRun extract st fs filePath eventSubtype now) :
    HandleFileEvent extract st fs filePath eventSubtype now =
      { st := { st with
          recentEvents := recentEventsRecord st.recentEvents (filePath, eventSubtype) now
          originalFileContents :=
            if eventSubtype = "file_created" then
              originalContentsStore st.originalFileContents filePath
                (ReadFileContent fs filePath)
            else st.originalFileContents
          filesBeingQuarantined := setInsert st.filesBeingQuarantined filePath }
        fs := fsRename fs filePath (vaultPathFor st filePath now)
        sent := [fileEnvelope eventSubtype
          (fileEventCls extract st fs filePath eventSubtype).severity "quarantined"
          filePath (pathFilename filePath)
          (fileEventCls extract st fs filePath eventSubtype).matchedPolicies]
        restores := [⟨10, vaultPathFor st filePath now, filePath,
          RestoreKind.onModify⟩] } := by
  have hmatched := h.matchedNonempty
  have hsummary := h.summaryNonempty
  have htotal := h.totalPos
  have hsa := h.suggestsQuarantine
  simp only [fileEventCls] at hmatched hsummary htotal hsa ⊢
  have hmatched2 : (Classify extract (ReadFileContent fs filePath)
      (relevantPoliciesFor st.filePolicies filePath eventSubtype)
      eventSubtype).matchedPolicies.isEmpty = false := by
    simp [List.isEmpty_iff, hmatched]
  have hsummary2 : (buildDetectedSummary (Classify extract (ReadFileContent fs filePath)
      (relevantPoliciesFor st.filePolicies filePath eventSubtype)
      eventSubtype).detectedContent).1.isEmpty = false :=
    Bool.eq_false_iff.mpr (fun hc => hsummary ((String.isEmpty_iff _).mp hc))
  have hrel : (relevantPoliciesFor st.filePolicies filePath eventSubtype).isEmpty
      = false := by
    simp [List.isEmpty_iff, h.relNonempty]
  rcases h.subtypeOk with hs | hs <;> subst hs <;>
    simp [HandleFileEvent, fileEventClassificationOf, fileEventEnforce, h.allow,
      h.hasFile, h.notMarked, h.existsFile, h.noDup, hrel, h.underCap, hmatched2,
      hsummary2, htotal, hsa, h.notGrace, emitted, SendEvent, fileEnvelope,
      vaultPathFor, hmatched]

theorem mem_emitted {st : AgentState} {e env : Envelope} (h : e ∈ emitted st env) :
    e = env := by
  unfold emitted SendEvent at h
  split_ifs at h <;> simp_all

theorem action_of_mem_emitted {st : AgentState} {e env : Envelope}
    (h : e ∈ emitted st env) : e.action = env.action := by
  rw [mem_emitted h]

theorem fileEventEnforce_grace (st : AgentState) (fs : Fs)
    (filePath eventSubtype fileName : String) (now : Nat) (cls : ClassificationResult)
    (hgrace : filePath ∈ st.recentlyRestored) :
    (fileEventEnforce st fs filePath eventSubtype fileName now cls).restores = [] ∧
      (∀ e ∈ (fileEventEnforce st fs filePath eventSubtype fileName now cls).sent,
        e.action = "logged" ∨ e.action = "deleted") ∧
      ((fileEventEnforce st fs filePath eventSubtype fileName now cls).fs = fs ∨
        (fileEventEnforce st fs filePath eventSubtype fileName now cls).fs =
          fsRemove fs filePath) := by
  simp only [fileEventEnforce]
  split_ifs
  all_goals try (exfalso; simp_all; done)
  all_goals refine ⟨rfl, ?_, ?_⟩
  all_goals try exact Or.inl rfl
  all_goals try exact Or.inr rfl
  all_goals intro e he
  all_goals try exact absurd he (List.not_mem_nil e)
  all_goals have hact := action_of_mem_emitted he
  all_goals try exact Or.inl hact
  all_goals exact Or.inr hact

/-- C7, corrected.  A path inside the grace window never undergoes a
quarantine: no restore task is scheduled, every delivered envelope
carries action `logged` (or `deleted`: a matching `block` rule still
deletes the file during grace), and the filesystem is touched at most by
such a block deletion.  But the claim's parenthetical "downgraded to a
log-only outcome" fails in the normal case: throughout the grace window
the path is also still in `filesBeingQuarantined` (both markers are
cleared together by the same 30-second cleanup thread), and then the
event is dropped at the top of `HandleFileEvent` with no envelope at
all; only a grace-marked path without the being-quarantined marker is
downgraded to a `logged` envelope. -/
theorem C7_grace_no_quarantine (extract : String → String → List String)
    (st : AgentState) (fs : Fs) (filePath eventSubtype : String) (now : Nat)
    (hgrace : filePath ∈ st.recentlyRestored) :
    (HandleFileEvent extract st fs filePath eventSubtype now).restores = [] ∧
      (∀ e ∈ (HandleFileEvent extract st fs filePath eventSubtype now).sent,
        e.action = "logged" ∨ e.action = "deleted") ∧
      ((HandleFileEvent extract st fs filePath eventSubtype now).fs = fs ∨
        (HandleFileEvent extract st fs filePath eventSubtype now).fs =
          fsRemove fs filePath) ∧
      (filePath ∈ st.filesBeingQuarantined →
        HandleFileEvent extract st fs filePath eventSubtype now = ⟨st, fs, [], []⟩) := by
  simp only [HandleFileEvent]
  split_ifs with h1 h2 h3 h4 h5 <;>
    first
    | exact ⟨rfl, fun e he => absurd he (List.not_mem_nil e), Or.inl rfl, fun _ => rfl⟩
    | exact ⟨rfl, fun e he => absurd he (List.not_mem_nil e), Or.inl rfl,
        fun hmem => absurd hmem h2⟩
    | exact ⟨(fileEventEnforce_grace _ _ _ _ _ _ _ (by exact hgrace)).1,
        (fileEventEnforce_grace _ _ _ _ _ _ _ (by exact hgrace)).2.1,
        (fileEventEnforce_grace _ _ _ _ _ _ _ (by exact hgrace)).2.2,
        fun hmem => absurd hmem h2⟩

/-- C1, corrected (quarantine/restore round trip for create/modify).
With a stored NON-empty baseline `B` for the path, a successful
create/modify quarantine renames the file to the vault under the
timestamp-prefixed name, schedules the 10-minute restore, and after the
restore runs the path holds exactly `B`, the vault copy is gone, the
baseline entry is cleared and the path enters the grace set.  The
non-emptiness of `B` is forced by the restore lambda's
`hasOriginal && !originalContent.empty()` test (line 4438): an empty
stored baseline instead renames the vault copy back and keeps the
baseline entry (see the counterexample). -/
theorem C1_modify_quarantine_restores_baseline
    (extract : String → String → List String) (st : AgentState) (fs : Fs)
    (filePath eventSubtype : String) (now : Nat) (B : String)
    (h : ModifyQuarantineRun extract st fs filePath eventSubtype now)
    (hvault : filePath ≠ vaultPathFor st filePath now)
    (hB : originalContentsFind
      (HandleFileEvent extract st fs filePath eventSubtype now).st.originalFileContents
      filePath = some B)
    (hBne : B ≠ "") :
    (HandleFileEvent extract st fs filePath eventSubtype now).restores =
      [⟨10, vaultPathFor st filePath now, filePath, RestoreKind.onModify⟩] ∧
    (HandleFileEvent extract st fs filePath eventSubtype now).sent =
      [fileEnvelope eventSubtype
        (fileEventCls extract st fs filePath eventSubtype).severity "quarantined"
        filePath (pathFilename filePath)
        (fileEventCls extract st fs filePath eventSubtype).matchedPolicies] ∧
    fsExists (HandleFileEvent extract st fs filePath eventSubtype now).fs filePath
      = false ∧
    fsRead (HandleFileEvent extract st fs filePath eventSubtype now).fs
      (vaultPathFor st filePath now) = fsRead fs filePath ∧
    fsRead (runRestoreTask
        (HandleFileEvent extract st fs filePath eventSubtype now).st
        (HandleFileEvent extract st fs filePath eventSubtype now).fs
        ⟨10, vaultPathFor st filePath now, filePath, RestoreKind.onModify⟩).2
      filePath = some B ∧
    fsExists (runRestoreTask
        (HandleFileEvent extract st fs filePath eventSubtype now).st
        (HandleFileEvent extract st fs filePath eventSubtype now).fs
        ⟨10, vaultPathFor st filePath now, filePath, RestoreKind.onModify⟩).2
      (vaultPathFor st filePath now) = false ∧
    originalContentsFind ((runRestoreTask
        (HandleFileEvent extract st fs filePath eventSubtype now).st
        (HandleFileEvent extract st fs filePath eventSubtype now).fs
        ⟨10, vaultPathFor st filePath now, filePath,
          RestoreKind.onModify⟩).1).originalFileContents filePath = none ∧
    filePath ∈ ((runRestoreTask
        (HandleFileEvent extract st fs filePath eventSubtype now).st
        (HandleFileEvent extract st fs filePath eventSubtype now).fs
        ⟨10, vaultPathFor st filePath now, filePath,
          RestoreKind.onModify⟩).1).recentlyRestored := by
  have hres := handleFileEvent_modify_quarantine extract st fs filePath eventSubtype now h
  obtain ⟨c, hc⟩ : ∃ c, fsRead fs filePath = some c := by
    have he := h.existsFile
    unfold fsExists at he
    exact Option.isSome_iff_exists.mp he
  have hvs : vaultPathFor st filePath now ≠ filePath := Ne.symm hvault
  have hfsres : (HandleFileEvent extract st fs filePath eventSubtype now).fs =
      fsWrite (fsRemove fs filePath) (vaultPathFor st filePath now) c := by
    rw [hres]
    exact fsRename_eq fs filePath _ c hc
  have hreadP : fsRead (HandleFileEvent extract st fs filePath eventSubtype now).fs
      filePath = none := by
    rw [hfsres, fsRead_fsWrite_ne _ _ _ _ hvault, fsRead_fsRemove_self]
  have hreadV : fsRead (HandleFileEvent extract st fs filePath eventSubtype now).fs
      (vaultPathFor st filePath now) = some c := by
    rw [hfsres, fsRead_fsWrite_self]
  have hBi : B.isEmpty = false :=
    Bool.eq_false_iff.mpr (fun hc2 => hBne ((String.isEmpty_iff _).mp hc2))
  have hEx : fsExists (fsWrite
      (HandleFileEvent extract st fs filePath eventSubtype now).fs filePath B)
      (vaultPathFor st filePath now) = true := by
    unfold fsExists
    rw [fsRead_fsWrite_ne _ _ _ _ hvs, hreadV]
    rfl
  have hrun : runRestoreTask
      (HandleFileEvent extract st fs filePath eventSubtype now).st
      (HandleFileEvent extract st fs filePath eventSubtype now).fs
      ⟨10, vaultPathFor st filePath now, filePath, RestoreKind.onModify⟩ =
      ({ (HandleFileEvent extract st fs filePath eventSubtype now).st with
          originalFileContents := originalContentsErase
            ((HandleFileEvent extract st fs filePath eventSubtype now).st).originalFileContents filePath
          recentlyRestored := setInsert
            ((HandleFileEvent extract st fs filePath eventSubtype now).st).recentlyRestored filePath },
        fsRemove (fsWrite
          (HandleFileEvent extract st fs filePath eventSubtype now).fs filePath B)
          (vaultPathFor st filePath now)) := by
    simp only [runRestoreTask, hB, hBi, Bool.not_false, if_true, hEx]
  refine ⟨by rw [hres], by rw [hres], ?_, ?_, ?_, ?_, ?_, ?_⟩
  · unfold fsExists
    rw [hreadP]
    rfl
  · rw [hreadV, hc]
  · rw [hrun]
    simp only
    rw [fsRead_fsRemove_ne _ _ _ hvault, fsRead_fsWrite_self]
  · rw [hrun]
    simp only
    rw [fsExists_fsRemove_self]
  · rw [hrun]
    simp only
    rw [originalContentsFind_erase_self]
  · rw [hrun]
    simp only
    exact mem_setInsert_self _ _

/-! ### Concrete instances for witnesses and counterexamples -/

/-- A quarantine rule over the `ssn` data type monitoring `C:\w`. -/
def ssnQuarantineRule : PolicyRule :=
  { policyId := "q1", action := "quarantine", dataTypes := ["ssn"],
    monitoredPaths := ["C:\\w"], monitoredEvents := ["file_created", "file_modified"] }

/-- Agent state with that rule active and baseline `A` stored for
`C:\w\a.txt`. -/
def stWithBaselineA : AgentState :=
  { hasFilePolices := true, allowEvents := true,
    filePolicies := [ssnQuarantineRule],
    originalFileContents := [("C:\\w\\a.txt", "A")] }

/-- The same state but with an EMPTY stored baseline (the file was empty
when `file_created` captured it). -/
def stWithEmptyBaseline : AgentState :=
  { stWithBaselineA with originalFileContents := [("C:\\w\\a.txt", "")] }

/-- Filesystem where the monitored file now holds sensitive content. -/
def secretFs : Fs := [("C:\\w\\a.txt", "123-45-6789")]

/-- Witness for C1 at a concrete run: baseline `A`, quarantine on a
modify event at clock 5, then the restore yields `A`, removes the vault
copy and clears the baseline. -/
theorem C1_modify_quarantine_restores_baseline_witness :
    fsRead (runRestoreTask
        (HandleFileEvent ExtractDataTypeModel stWithBaselineA secretFs
          "C:\\w\\a.txt" "file_modified" 5).st
        (HandleFileEvent ExtractDataTypeModel stWithBaselineA secretFs
          "C:\\w\\a.txt" "file_modified" 5).fs
        ⟨10, vaultPathFor stWithBaselineA "C:\\w\\a.txt" 5, "C:\\w\\a.txt",
          RestoreKind.onModify⟩).2 "C:\\w\\a.txt" = some "A" ∧
      fsExists (runRestoreTask
        (HandleFileEvent ExtractDataTypeModel stWithBaselineA secretFs
          "C:\\w\\a.txt" "file_modified" 5).st
        (HandleFileEvent ExtractDataTypeModel stWithBaselineA secretFs
          "C:\\w\\a.txt" "file_modified" 5).fs
        ⟨10, vaultPathFor stWithBaselineA "C:\\w\\a.txt" 5, "C:\\w\\a.txt",
          RestoreKind.onModify⟩).2
        (vaultPathFor stWithBaselineA "C:\\w\\a.txt" 5) = false ∧
      originalContentsFind ((runRestoreTask
        (HandleFileEvent ExtractDataTypeModel stWithBaselineA secretFs
          "C:\\w\\a.txt" "file_modified" 5).st
        (HandleFileEvent ExtractDataTypeModel stWithBaselineA secretFs
          "C:\\w\\a.txt" "file_modified" 5).fs
        ⟨10, vaultPathFor stWithBaselineA "C:\\w\\a.txt" 5, "C:\\w\\a.txt",
          RestoreKind.onModify⟩).1).originalFileContents "C:\\w\\a.txt" = none := by
  have h := C1_modify_quarantine_restores_baseline ExtractDataTypeModel
    stWithBaselineA secretFs "C:\\w\\a.txt" "file_modified" 5 "A"
    ⟨by decide, by decide, by decide, Or.inr rfl, by decide, by decide, by decide,
      by decide, by decide, by decide, by decide, by decide, by decide⟩
    (by decide) (by decide) (by decide)
  exact ⟨h.2.2.2.2.1, h.2.2.2.2.2.1, h.2.2.2.2.2.2.1⟩

/-- C1 counterexample: with a stored EMPTY baseline (`B = ""`), the
quarantine succeeds, but the restore does not rewrite `B`: it renames the
vault copy back (the path ends with the quarantined content, not `B`) and
the baseline entry is NOT cleared. -/
theorem C1_counterexample :
    originalContentsFind (HandleFileEvent ExtractDataTypeModel stWithEmptyBaseline
      secretFs "C:\\w\\a.txt" "file_modified" 5).st.originalFileContents
      "C:\\w\\a.txt" = some "" ∧
    (HandleFileEvent ExtractDataTypeModel stWithEmptyBaseline secretFs
      "C:\\w\\a.txt" "file_modified" 5).restores =
      [⟨10, "C:\\Quarantine\\5_a.txt", "C:\\w\\a.txt", RestoreKind.onModify⟩] ∧
    fsRead (runRestoreTask
      (HandleFileEvent ExtractDataTypeModel stWithEmptyBaseline secretFs
        "C:\\w\\a.txt" "file_modified" 5).st
      (HandleFileEvent ExtractDataTypeModel stWithEmptyBaseline secretFs
        "C:\\w\\a.txt" "file_modified" 5).fs
      ⟨10, "C:\\Quarantine\\5_a.txt", "C:\\w\\a.txt", RestoreKind.onModify⟩).2
      "C:\\w\\a.txt" = some "123-45-6789" ∧
    originalContentsFind ((runRestoreTask
      (HandleFileEvent ExtractDataTypeModel stWithEmptyBaseline secretFs
        "C:\\w\\a.txt" "file_modified" 5).st
      (HandleFileEvent ExtractDataTypeModel stWithEmptyBaseline secretFs
        "C:\\w\\a.txt" "file_modified" 5).fs
      ⟨10, "C:\\Quarantine\\5_a.txt", "C:\\w\\a.txt",
        RestoreKind.onModify⟩).1).originalFileContents "C:\\w\\a.txt" = some "" ∧
    ("123-45-6789" : String) ≠ "" := by
  refine ⟨by decide, by decide, by decide, by decide, by decide⟩

/-- C8, corrected.  Quarantine-then-restore on create/modify is
content-preserving ONLY when no non-empty baseline is stored for the
path at restore time: then the restore renames the vault copy back
unchanged.  When a non-empty baseline `B` is stored — the normal case
for a modified file — the restore rewrites `B`, the content captured at
FIRST observation, not the bytes read immediately before the quarantine
(see the counterexample, and C1 for the non-empty-baseline behaviour). -/
theorem C8_restore_preserves_content_without_baseline
    (extract : String → String → List String) (st : AgentState) (fs : Fs)
    (filePath eventSubtype : String) (now : Nat)
    (h : ModifyQuarantineRun extract st fs filePath eventSubtype now)
    (hvault : filePath ≠ vaultPathFor st filePath now)
    (hB0 : originalContentsFind
        (HandleFileEvent extract st fs filePath eventSubtype now).st.originalFileContents
        filePath = none ∨
      originalContentsFind
        (HandleFileEvent extract st fs filePath eventSubtype now).st.originalFileContents
        filePath = some "") :
    fsRead (runRestoreTask
        (HandleFileEvent extract st fs filePath eventSubtype now).st
        (HandleFileEvent extract st fs filePath eventSubtype now).fs
        ⟨10, vaultPathFor st filePath now, filePath, RestoreKind.onModify⟩).2
      filePath = fsRead fs filePath := by
  have hres := handleFileEvent_modify_quarantine extract st fs filePath eventSubtype now h
  obtain ⟨c, hc⟩ : ∃ c, fsRead fs filePath = some c := by
    have he := h.existsFile
    unfold fsExists at he
    exact Option.isSome_iff_exists.mp he
  have hfsres : (HandleFileEvent extract st fs filePath eventSubtype now).fs =
      fsWrite (fsRemove fs filePath) (vaultPathFor st filePath now) c := by
    rw [hres]
    exact fsRename_eq fs filePath _ c hc
  have hreadP : fsRead (HandleFileEvent extract st fs filePath eventSubtype now).fs
      filePath = none := by
    rw [hfsres, fsRead_fsWrite_ne _ _ _ _ hvault, fsRead_fsRemove_self]
  have hreadV : fsRead (HandleFileEvent extract st fs filePath eventSubtype now).fs
      (vaultPathFor st filePath now) = some c := by
    rw [hfsres, fsRead_fsWrite_self]
  have hExV : fsExists (HandleFileEvent extract st fs filePath eventSubtype now).fs
      (vaultPathFor st filePath now) = true := by
    unfold fsExists
    rw [hreadV]
    rfl
  have hExP : fsExists (HandleFileEvent extract st fs filePath eventSubtype now).fs
      filePath = false := by
    unfold fsExists
    rw [hreadP]
    rfl
  have hren : fsRead (fsRename
      (HandleFileEvent extract st fs filePath eventSubtype now).fs
      (vaultPathFor st filePath now) filePath) filePath = some c :=
    fsRead_fsRename_dst _ _ _ c hreadV
  rcases hB0 with hB0 | hB0
  · simp only [runRestoreTask, hB0, hExV, hExP, Bool.not_false, Bool.and_self, if_true]
    rw [hren, hc]
  · have hemp : ("" : String).isEmpty = true := rfl
    simp only [runRestoreTask, hB0, hemp, Bool.not_true, Bool.false_eq_true, if_false,
      hExV, hExP, Bool.not_false, Bool.and_self, if_true]
    rw [hren, hc]

/-- C8 counterexample: the file is created with content `A` (the stored
baseline), then modified to hold an SSN; the bytes readable immediately
before the quarantine are `123-45-6789`, but after the scheduled restore
the path holds `A`: `read(P) before != read(P) after`. -/
theorem C8_counterexample :
    fsRead secretFs "C:\\w\\a.txt" = some "123-45-6789" ∧
    fsRead (runRestoreTask
      (HandleFileEvent ExtractDataTypeModel stWithBaselineA secretFs
        "C:\\w\\a.txt" "file_modified" 5).st
      (HandleFileEvent ExtractDataTypeModel stWithBaselineA secretFs
        "C:\\w\\a.txt" "file_modified" 5).fs
      ⟨10, "C:\\Quarantine\\5_a.txt", "C:\\w\\a.txt", RestoreKind.onModify⟩).2
      "C:\\w\\a.txt" = some "A" ∧
    some ("A" : String) ≠ some "123-45-6789" := by
  refine ⟨by decide, by decide, by decide⟩

/-- Witness for C8 at a concrete run with no stored baseline: the vault
copy is renamed back, so the content is preserved. -/
theorem C8_restore_preserves_content_without_baseline_witness :
    fsRead (runRestoreTask
        (HandleFileEvent ExtractDataTypeModel
          { hasFilePolices := true, allowEvents := true,
            filePolicies := [ssnQuarantineRule] } secretFs
          "C:\\w\\a.txt" "file_modified" 5).st
        (HandleFileEvent ExtractDataTypeModel
          { hasFilePolices := true, allowEvents := true,
            filePolicies := [ssnQuarantineRule] } secretFs
          "C:\\w\\a.txt" "file_modified" 5).fs
        ⟨10, vaultPathFor
          { hasFilePolices := true, allowEvents := true,
            filePolicies := [ssnQuarantineRule] } "C:\\w\\a.txt" 5,
          "C:\\w\\a.txt", RestoreKind.onModify⟩).2
      "C:\\w\\a.txt" = fsRead secretFs "C:\\w\\a.txt" :=
  C8_restore_preserves_content_without_baseline ExtractDataTypeModel
    { hasFilePolices := true, allowEvents := true,
      filePolicies := [ssnQuarantineRule] } secretFs
    "C:\\w\\a.txt" "file_modified" 5
    ⟨by decide, by decide, by decide, Or.inr rfl, by decide, by decide, by decide,
      by decide, by decide, by decide, by decide, by decide, by decide⟩
    (by decide) (Or.inl (by decide))

/-- Concrete state for the C7 witness: path in the grace set only. -/
def stGraceOnly : AgentState :=
  { hasFilePolices := true, allowEvents := true,
    filePolicies := [ssnQuarantineRule],
    recentlyRestored := ["C:\\w\\a.txt"] }

/-- Concrete state for the C7 counterexample: path in the grace set AND
still carrying the being-quarantined marker, as left by a completed
restore before the 30-second cleanup sweep. -/
def stGraceMarked : AgentState :=
  { hasFilePolices := true, allowEvents := true,
    filePolicies := [ssnQuarantineRule],
    filesBeingQuarantined := ["C:\\w\\a.txt"],
    recentlyRestored := ["C:\\w\\a.txt"] }

/-- Witness for C7 at a concrete grace-window run. -/
theorem C7_grace_no_quarantine_witness :
    "C:\\w\\a.txt" ∈ stGraceOnly.recentlyRestored ∧
    ((HandleFileEvent ExtractDataTypeModel stGraceOnly secretFs
        "C:\\w\\a.txt" "file_modified" 5).restores = [] ∧
      (∀ e ∈ (HandleFileEvent ExtractDataTypeModel stGraceOnly secretFs
          "C:\\w\\a.txt" "file_modified" 5).sent,
        e.action = "logged" ∨ e.action = "deleted") ∧
      ((HandleFileEvent ExtractDataTypeModel stGraceOnly secretFs
          "C:\\w\\a.txt" "file_modified" 5).fs = secretFs ∨
        (HandleFileEvent ExtractDataTypeModel stGraceOnly secretFs
          "C:\\w\\a.txt" "file_modified" 5).fs =
          fsRemove secretFs "C:\\w\\a.txt") ∧
      ("C:\\w\\a.txt" ∈ stGraceOnly.filesBeingQuarantined →
        HandleFileEvent ExtractDataTypeModel stGraceOnly secretFs
          "C:\\w\\a.txt" "file_modified" 5 = ⟨stGraceOnly, secretFs, [], []⟩)) :=
  ⟨by decide, C7_grace_no_quarantine ExtractDataTypeModel stGraceOnly secretFs
    "C:\\w\\a.txt" "file_modified" 5 (by decide)⟩

/-- C7 counterexample to the claimed "downgraded to a log-only outcome":
in the state a completed restore actually leaves (grace marker AND
being-quarantined marker, cleared together by the same cleanup thread),
a modify event whose classification suggests quarantine is dropped at
the top of `HandleFileEvent` with NO envelope at all — not downgraded
to a logged envelope. -/
theorem C7_counterexample :
    (fileEventCls ExtractDataTypeModel stGraceMarked secretFs
      "C:\\w\\a.txt" "file_modified").suggestedAction = "quarantine" ∧
    HandleFileEvent ExtractDataTypeModel stGraceMarked secretFs
      "C:\\w\\a.txt" "file_modified" 5 = ⟨stGraceMarked, secretFs, [], []⟩ := by
  refine ⟨by decide, by decide⟩

/-- Empty classification (lines 4113-4131): `fileEventEnforce` returns
state and filesystem untouched with no envelope and no restore. -/
theorem fileEventEnforce_skip_parts (st : AgentState) (fs : Fs)
    (filePath eventSubtype fileName : String) (now : Nat)
    (cls : ClassificationResult)
    (h1 : cls.labels = []) (h2 : cls.matchedPolicies = []) :
    (fileEventEnforce st fs filePath eventSubtype fileName now cls).fs = fs ∧
    (fileEventEnforce st fs filePath eventSubtype fileName now cls).sent = [] ∧
    (fileEventEnforce st fs filePath eventSubtype fileName now cls).restores = [] := by
  simp [fileEventEnforce, h1, h2]

/-- C10, confirmed.  For a `file_created` / `file_modified` event on a
file under the size cap whose classification yields no labels and no
matched policies, `HandleFileEvent` emits no envelope, schedules no
restore, and leaves the filesystem exactly as it was (only in-memory
dedup / baseline bookkeeping changes). -/
theorem C10_empty_classification_no_effect
    (extract : String → String → List String) (st : AgentState) (fs : Fs)
    (filePath eventSubtype : String) (now : Nat)
    (hsub : eventSubtype = "file_created" ∨ eventSubtype = "file_modified")
    (hcap : ((fsRead fs filePath).getD "").length < st.maxFileSizeMB * 1024 * 1024)
    (hlab : (fileEventCls extract st fs filePath eventSubtype).labels = [])
    (hmat : (fileEventCls extract st fs filePath eventSubtype).matchedPolicies = []) :
    (HandleFileEvent extract st fs filePath eventSubtype now).fs = fs ∧
    (HandleFileEvent extract st fs filePath eventSubtype now).sent = [] ∧
    (HandleFileEvent extract st fs filePath eventSubtype now).restores = [] := by
  rcases hsub with hs | hs <;> subst hs <;>
    (simp only [HandleFileEvent]
     split_ifs <;>
       first
       | exact ⟨rfl, rfl, rfl⟩
       | exact fileEventEnforce_skip_parts _ _ _ _ _ _ _
           (by unfold fileEventClassificationOf
               rw [if_neg (by decide), if_pos hcap]
               exact hlab)
           (by unfold fileEventClassificationOf
               rw [if_neg (by decide), if_pos hcap]
               exact hmat))

/-- State for the C10 witness: the SSN quarantine rule is active. -/
def stBenign : AgentState :=
  { hasFilePolices := true, allowEvents := true,
    filePolicies := [ssnQuarantineRule] }

/-- A monitored file whose content matches no data type. -/
def benignFs : Fs := [("C:\\w\\b.txt", "hello world")]

/-- Witness for C10 at a concrete benign modify event. -/
theorem C10_empty_classification_no_effect_witness :
    (HandleFileEvent ExtractDataTypeModel stBenign benignFs
        "C:\\w\\b.txt" "file_modified" 5).fs = benignFs ∧
    (HandleFileEvent ExtractDataTypeModel stBenign benignFs
        "C:\\w\\b.txt" "file_modified" 5).sent = [] ∧
    (HandleFileEvent ExtractDataTypeModel stBenign benignFs
        "C:\\w\\b.txt" "file_modified" 5).restores = [] :=
  C10_empty_classification_no_effect ExtractDataTypeModel stBenign benignFs
    "C:\\w\\b.txt" "file_modified" 5 (Or.inr rfl) (by decide) (by decide) (by decide)

/-- C2, confirmed.  With an empty active policy set (no file, clipboard,
USB-device, or USB-transfer policies) and `allowEvents` maintained as
`ApplyPolicyBundle` computes it — the disjunction of the four has-policy
flags (line 2533) — `SendEvent` drops every envelope, so no event is ever
delivered; in particular any file-event run delivers nothing. -/
theorem C2_no_policies_no_telemetry (st : AgentState)
    (hwf : st.allowEvents = (st.hasFilePolices || st.hasClipboardPolicies ||
      st.hasUsbDevicePolicies || st.hasUsbTransferPolicies))
    (hf : st.hasFilePolices = false) (hc : st.hasClipboardPolicies = false)
    (hd : st.hasUsbDevicePolicies = false) (ht : st.hasUsbTransferPolicies = false) :
    (∀ e : Envelope, SendEvent st e = none) ∧
    (∀ (extract : String → String → List String) (fs : Fs)
      (filePath eventSubtype : String) (now : Nat),
      (HandleFileEvent extract st fs filePath eventSubtype now).sent = []) := by
  have hall : st.allowEvents = false := by
    rw [hwf, hf, hc, hd, ht]; rfl
  refine ⟨fun e => ?_, fun extract fs filePath eventSubtype now => ?_⟩
  · simp [SendEvent, hall]
  · simp [HandleFileEvent, hall]

/-- Witness for C2 at the default (policy-free) agent state. -/
theorem C2_no_policies_no_telemetry_witness :
    SendEvent {} { eventType := "dlp_file_event", action := "quarantined" } = none ∧
    (HandleFileEvent ExtractDataTypeModel {} secretFs
      "C:\\w\\a.txt" "file_modified" 5).sent = [] :=
  ⟨(C2_no_policies_no_telemetry {} (by decide) rfl rfl rfl rfl).1 _,
   (C2_no_policies_no_telemetry {} (by decide) rfl rfl rfl rfl).2
     ExtractDataTypeModel secretFs "C:\\w\\a.txt" "file_modified" 5⟩

/-! ### `DLPAgent::HandleUsbDeviceArrival` and `HandleUsbEvent` -/

/-- Accumulator of the `usb_connect` policy loop in
`HandleUsbDeviceArrival` (lines 1454-1477). -/
structure UsbConnectScan where
  policyAction : String := "log"
  matchedPolicyId : String := ""
  matchedPolicyName : String := ""
  shouldBlock : Bool := false
  deriving Repr, DecidableEq

/-- One iteration of that loop: a disabled policy is skipped; the first
monitored event equal to `usb_connect` / `all` / `*` adopts the policy;
once `shouldBlock` is set the outer loop breaks. -/
def usbConnectScanStep (acc : UsbConnectScan) (policy : PolicyRule) : UsbConnectScan :=
  if acc.shouldBlock then acc
  else if !policy.enabled then acc
  else
    match policy.monitoredEvents.find?
        (fun e => e = "usb_connect" || e = "all" || e = "*") with
    | none => acc
    | some _ =>
      { policyAction := policy.action, matchedPolicyId := policy.policyId,
        matchedPolicyName := policy.name, shouldBlock := policy.action = "block" }

def usbConnectScan (policies : List PolicyRule) : UsbConnectScan :=
  policies.foldl usbConnectScanStep {}

/-- `DLPAgent::HandleUsbEvent` (lines 3539-3708): the first enabled
policy whose monitored events contain `usb_{eventType}` / `all` / `*`
determines action and severity; the envelope carries the device name in
the file-name slot and the matched policy id. -/
def HandleUsbEvent (st : AgentState) (deviceName _deviceId eventType : String) :
    List Envelope :=
  if !st.allowEvents then []
  else if st.usbPolicies.isEmpty then []
  else
    let eventToCheck := "usb_" ++ eventType
    match st.usbPolicies.find? (fun p => p.enabled &&
        p.monitoredEvents.any (fun e => e = eventToCheck || e = "all" || e = "*")) with
    | none => []
    | some p =>
      let severity :=
        if p.action = "block" then "critical"
        else if p.action = "alert" then "high" else "medium"
      emitted st
        { eventType := "usb", eventSubtype := eventToCheck,
          severity := severity, action := p.action, filePath := "",
          fileName := deviceName, matchedPolicies := [p.policyId] }

/-- `DLPAgent::HandleUsbDeviceArrival` (lines 1419-1602).  Returns the
delivered envelopes and whether the device blocker
(`BlockUSBStorageViaRegistry` / `DisableAllUSBStorageDevices` / eject)
was invoked.  The if / else-if chain at lines 1481 and 1590 only covers
`shouldBlock` being true: when the matched action is merely alert or
log, the function falls off the end. -/
def HandleUsbDeviceArrival (st : AgentState) (deviceName deviceId : String) :
    List Envelope × Bool :=
  if !st.allowEvents || !st.hasUsbDevicePolicies then ([], false)
  else if st.usbPolicies.isEmpty then ([], false)
  else
    let scan := usbConnectScan st.usbPolicies
    if scan.shouldBlock && st.usbBlockingActive then
      (emitted st
        { eventType := "usb", eventSubtype := "usb_blocked",
          severity := "critical", action := "blocked", filePath := "",
          fileName := deviceName, matchedPolicies := [scan.matchedPolicyId] }, true)
    else if scan.shouldBlock && !st.usbBlockingActive then
      (HandleUsbEvent st deviceName deviceId "connect", false)
    else ([], false)

/-- Without an enabled block rule the connect scan never sets
`shouldBlock`. -/
theorem usbConnectScan_no_block (policies : List PolicyRule)
    (h : ∀ p ∈ policies, p.action ≠ "block") :
    (usbConnectScan policies).shouldBlock = false := by
  have haux : ∀ (l : List PolicyRule) (acc : UsbConnectScan),
      (∀ p ∈ l, p.action ≠ "block") → acc.shouldBlock = false →
      (l.foldl usbConnectScanStep acc).shouldBlock = false := by
    intro l
    induction l with
    | nil => intro acc _ hacc; simpa using hacc
    | cons p rest ih =>
      intro acc hl hacc
      simp only [List.foldl_cons]
      refine ih _ (fun q hq => hl q (List.mem_cons_of_mem p hq)) ?_
      unfold usbConnectScanStep
      split_ifs with h1 h2
      · exact hacc
      · exact hacc
      · cases hfind : p.monitoredEvents.find?
            (fun e => e = "usb_connect" || e = "all" || e = "*") with
        | none => simpa [hfind] using hacc
        | some e =>
          simp only [hfind]
          exact decide_eq_false (hl p (List.mem_cons_self p rest))
  exact haux policies {} h rfl

/-- C9, corrected.  When no active USB-device rule has action `block`
(only alert / log rules, whatever events they monitor), a device
arrival never invokes the blocker — but, contrary to the claim, it
emits NO envelope either: the arrival handler's if / else-if chain only
handles `shouldBlock`, so the alert/log case falls through without any
`SendEvent` call. -/
theorem C9_alert_only_arrival_emits_nothing (st : AgentState)
    (deviceName deviceId : String)
    (h : ∀ p ∈ st.usbPolicies, p.action ≠ "block") :
    HandleUsbDeviceArrival st deviceName deviceId = ([], false) := by
  have hb := usbConnectScan_no_block st.usbPolicies h
  unfold HandleUsbDeviceArrival
  split_ifs with h1 h2 <;> simp [hb]

/-- Enabled USB-device policy that alerts on connect. -/
def usbAlertRule : PolicyRule :=
  { policyId := "u1", name := "usb alert", action := "alert",
    monitoredEvents := ["usb_connect"] }

/-- Agent state with only that USB-device rule active. -/
def stUsbAlert : AgentState :=
  { hasUsbDevicePolicies := true, allowEvents := true,
    usbBlockingActive := true, usbPolicies := [usbAlertRule] }

/-- Witness for C9 at a concrete alert-only arrival. -/
theorem C9_alert_only_arrival_emits_nothing_witness :
    HandleUsbDeviceArrival stUsbAlert "Kingston DataTraveler"
      "USB\\VID_0951&PID_1666" = ([], false) :=
  C9_alert_only_arrival_emits_nothing stUsbAlert "Kingston DataTraveler"
    "USB\\VID_0951&PID_1666" (by decide)

/-- C9 counterexample to the claimed alert/log envelope: the alert rule
matches the connect event (the scan adopts action `alert`), and the
same state routed through `HandleUsbEvent` WOULD emit an alert
envelope, yet the arrival handler delivers nothing at all. -/
theorem C9_counterexample :
    (usbConnectScan stUsbAlert.usbPolicies).policyAction = "alert" ∧
    HandleUsbEvent stUsbAlert "Kingston DataTraveler" "USB\\VID_0951&PID_1666"
      "connect" =
      [{ eventType := "usb", eventSubtype := "usb_connect", severity := "high",
         action := "alert", filePath := "", fileName := "Kingston DataTraveler",
         matchedPolicies := ["u1"] }] ∧
    (HandleUsbDeviceArrival stUsbAlert "Kingston DataTraveler"
      "USB\\VID_0951&PID_1666").1 = [] := by
  refine ⟨by decide, by decide, by decide⟩

/-! ### Policy-bundle parsing: `ApplyPolicyBundle` and its helpers -/

/-- `while (isspace(s[i])) i++` starting at the head of the dropped tail. -/
def skipWsAux : List Char → Nat → Nat
  | [], i => i
  | c :: t, i => if charIsSpace c then skipWsAux t (i + 1) else i

/-- First index at or after `pos` holding a non-space character (or the
length of `content`). -/
def skipWsFrom (content : List Char) (pos : Nat) : Nat :=
  skipWsAux (content.drop pos) pos

/-- The trailing `while (s[pos] == ',' || isspace(s[pos])) pos++` of the
array-element loop. -/
def skipCommaWsAux : List Char → Nat → Nat
  | [], i => i
  | c :: t, i => if c = ',' || charIsSpace c then skipCommaWsAux t (i + 1) else i

def skipCommaWsFrom (content : List Char) (pos : Nat) : Nat :=
  skipCommaWsAux (content.drop pos) pos

/-- `std::string::rfind(pat, fromPos)`: last occurrence of `pat` starting
at or before `fromPos`. -/
def strRfind (s pat : String) (fromPos : Nat) : Option Nat :=
  ((List.range (fromPos + 1)).filter
    (fun i => pat.data.isPrefixOf (s.data.drop i))).getLast?

/-- `DLPAgent::ExtractJsonString` (lines 2809-2823): the text between the
first pair of quotes after the colon after the first occurrence of the
quoted key. -/
def ExtractJsonString (json key : String) : String :=
  match strFind json ("\"" ++ key ++ "\"") with
  | none => ""
  | some keyPos =>
    match strFindFrom json ":" keyPos with
    | none => ""
    | some colonPos =>
      match strFindFrom json "\"" colonPos with
      | none => ""
      | some quoteStart =>
        match strFindFrom json "\"" (quoteStart + 1) with
        | none => ""
        | some quoteEnd => strSubstr json (quoteStart + 1) (quoteEnd - quoteStart - 1)

/-- Element loop of `ExtractJsonArray` (lines 2887-2924).  The fuel is the
content length plus one; the position strictly increases each round, so
the fuel never runs out. -/
def extractJsonArrayLoop (content : List Char) : Nat → Nat → List String
  | 0, _ => []
  | fuel + 1, pos0 =>
    if pos0 < content.length then
      let pos := skipWsFrom content pos0
      if pos < content.length then
        if content.get? pos = some '"' then
          match strFindAux (content.drop (pos + 1)) ['"'] (pos + 1) with
          | none => []
          | some quoteEnd =>
            String.mk ((content.drop (pos + 1)).take (quoteEnd - (pos + 1))) ::
              extractJsonArrayLoop content fuel (skipCommaWsFrom content (quoteEnd + 1))
        else
          match strFindAux (content.drop pos) [','] pos with
          | none => []
          | some commaPos =>
            extractJsonArrayLoop content fuel (skipCommaWsFrom content (commaPos + 1))
      else []
    else []

/-- `DLPAgent::ExtractJsonArray` (lines 2825-2928): quoted strings of the
bracketed list after the key (the closing bracket is located by a plain
`find("]")`, as in the source). -/
def ExtractJsonArray (json key : String) : List String :=
  match strFind json ("\"" ++ key ++ "\"") with
  | none => []
  | some keyPos =>
    match strFindFrom json ":" keyPos with
    | none => []
    | some colonPos =>
      let searchStart := skipWsFrom json.data (colonPos + 1)
      if json.data.get? searchStart = some '[' then
        match strFindFrom json "]" searchStart with
        | none => []
        | some arrayEnd =>
          let arrayContent := (json.data.drop (searchStart + 1)).take (arrayEnd - searchStart - 1)
          if arrayContent.all charIsSpace then []
          else extractJsonArrayLoop arrayContent (arrayContent.length + 1) 0
      else []

/-- `DLPAgent::ExtractJsonBool` (lines 2930-2949): true exactly when the
four characters after the colon (whitespace skipped) spell `true`. -/
def ExtractJsonBool (json key : String) : Bool :=
  match strFind json ("\"" ++ key ++ "\"") with
  | none => false
  | some keyPos =>
    match strFindFrom json ":" keyPos with
    | none => false
    | some colonPos =>
      let valueStart := skipWsFrom json.data (colonPos + 1)
      decide (valueStart + 4 ≤ json.data.length) &&
        decide (strSubstr json valueStart 4 = "true")

/-- `DLPAgent::ParsePolicyObject` (lines 2640-2807).  Only the fields the
source actually assigns are parsed: id / policy_id, name, the `enabled`
probe (any later occurrence of `false` disables the rule), the config
action (default `alert`), the USB-transfer quarantine path and monitored
paths, the USB events object, and the clipboard / file-system data-type
patterns.  File-system monitored paths, extensions and events are NOT
parsed by the source. -/
def ParsePolicyObject (policyObj policyType : String) : PolicyRule :=
  let pid0 := ExtractJsonString policyObj "id"
  let pid := if pid0.isEmpty then ExtractJsonString policyObj "policy_id" else pid0
  let nm := ExtractJsonString policyObj "name"
  let enabled :=
    match strFind policyObj "\"enabled\"" with
    | none => true
    | some enabledPos => (strFindFrom policyObj "false" enabledPos).isNone
  let base : PolicyRule :=
    { policyType := policyType, policyId := pid, name := nm, enabled := enabled }
  match strFind policyObj "\"config\"" with
  | none => base
  | some configPos =>
    match strFindFrom policyObj "\x7b" configPos with
    | none => base
    | some configStart =>
      match FindMatchingBracket policyObj configStart '\x7b' '\x7d' with
      | none => base
      | some configEnd =>
        let configObj := strSubstr policyObj configStart (configEnd - configStart + 1)
        let action0 := ExtractJsonString configObj "action"
        let action := if action0.isEmpty then "alert" else action0
        let quarPath0 :=
          if policyType = "usb_file_transfer_monitoring" then
            ExtractJsonString configObj "quarantinePath"
          else ""
        let quarPath :=
          if policyType = "usb_file_transfer_monitoring" then
            match strFind policyObj "\"actions\"" with
            | none => quarPath0
            | some actionsPos =>
              match strFindFrom policyObj "\x7b" actionsPos with
              | none => quarPath0
              | some actionsStart =>
                match FindMatchingBracket policyObj actionsStart '\x7b' '\x7d' with
                | none => quarPath0
                | some actionsEnd =>
                  let actionsObj := strSubstr policyObj actionsStart (actionsEnd - actionsStart + 1)
                  match strFind actionsObj "\"quarantine\"" with
                  | none => quarPath0
                  | some quarPos =>
                    match strFindFrom actionsObj "\x7b" quarPos with
                    | none => quarPath0
                    | some quarStart =>
                      match FindMatchingBracket actionsObj quarStart '\x7b' '\x7d' with
                      | none => quarPath0
                      | some quarEnd =>
                        let quarObj := strSubstr actionsObj quarStart (quarEnd - quarStart + 1)
                        let qp := ExtractJsonString quarObj "path"
                        if qp.isEmpty then quarPath0 else qp
          else ""
        let mpaths :=
          if policyType = "usb_file_transfer_monitoring" then
            ExtractJsonArray configObj "monitoredPaths"
          else []
        let mevents :=
          if policyType = "usb_device_monitoring" ||
              policyType = "usb_file_transfer_monitoring" then
            match strFind configObj "\"events\"" with
            | none => []
            | some eventsPos =>
              match strFindFrom configObj "\x7b" eventsPos with
              | none => []
              | some eventsStart =>
                match FindMatchingBracket configObj eventsStart '\x7b' '\x7d' with
                | none => []
                | some eventsEnd =>
                  let eventsObj := strSubstr configObj eventsStart (eventsEnd - eventsStart + 1)
                  (if ExtractJsonBool eventsObj "connect" then ["usb_connect"] else []) ++
                    (if ExtractJsonBool eventsObj "disconnect" then ["usb_disconnect"] else []) ++
                    (if ExtractJsonBool eventsObj "fileTransfer" then ["usb_file_transfer"] else [])
          else []
        let dts :=
          if policyType = "clipboard_monitoring" ||
              policyType = "file_system_monitoring" then
            let fromPatterns :=
              match strFind configObj "\"patterns\"" with
              | none => []
              | some patternsPos =>
                match strFindFrom configObj "\x7b" patternsPos with
                | none => []
                | some patternsStart =>
                  match FindMatchingBracket configObj patternsStart '\x7b' '\x7d' with
                  | none => []
                  | some patternsEnd =>
                    let patternsObj := strSubstr configObj patternsStart
                      (patternsEnd - patternsStart + 1)
                    ExtractJsonArray patternsObj "predefined" ++
                      ExtractJsonArray patternsObj "custom"
            if fromPatterns.isEmpty then ExtractJsonArray configObj "dataTypes"
            else fromPatterns
          else []
        { base with
          action := action, quarantinePath := quarPath,
          monitoredPaths := mpaths, monitoredEvents := mevents, dataTypes := dts }

/-- Object loop of `ParsePolicyArray` (lines 2606-2623): each balanced
object is parsed and kept only when enabled.  The position strictly
increases, so content length plus one is enough fuel. -/
def parsePolicyArrayLoop (arrayContent policyType : String) : Nat → Nat → List PolicyRule
  | 0, _ => []
  | fuel + 1, pos =>
    if pos < arrayContent.data.length then
      match strFindFrom arrayContent "\x7b" pos with
      | none => []
      | some objStart =>
        match FindMatchingBracket arrayContent objStart '\x7b' '\x7d' with
        | none => []
        | some objEnd =>
          let rule := ParsePolicyObject
            (strSubstr arrayContent objStart (objEnd - objStart + 1)) policyType
          (if rule.enabled then [rule] else []) ++
            parsePolicyArrayLoop arrayContent policyType fuel (objEnd + 1)
    else []

/-- `DLPAgent::ParsePolicyArray` (lines 2582-2624), returning the parsed
enabled rules; the caller's `hasPolicy` flag becomes non-emptiness of
the result. -/
def ParsePolicyArray (bundleJson policyType : String) : List PolicyRule :=
  match strFind bundleJson ("\"" ++ policyType ++ "\"") with
  | none => []
  | some typePos =>
    match strFindFrom bundleJson "[" typePos with
    | none => []
    | some arrayStart =>
      match FindMatchingBracket bundleJson arrayStart '[' ']' with
      | none => []
      | some arrayEnd =>
        let arrayContent := strSubstr bundleJson (arrayStart + 1) (arrayEnd - arrayStart - 1)
        if arrayContent.data.all charIsSpace then []
        else parsePolicyArrayLoop arrayContent policyType (arrayContent.data.length + 1) 0

/-- `DLPAgent::ExtractSeverityFromPolicyJson` (lines 2142-2160). -/
def ExtractSeverityFromPolicyJson (bundleJson policyId : String) : String :=
  match strFind bundleJson ("\"id\":\"" ++ policyId ++ "\"") with
  | none => "medium"
  | some idPos =>
    match strRfind bundleJson "\x7b" idPos with
    | none => "medium"
    | some policyStart =>
      match FindMatchingBracket bundleJson policyStart '\x7b' '\x7d' with
      | none => "medium"
      | some policyEnd =>
        let sv := ExtractJsonString
          (strSubstr bundleJson policyStart (policyEnd - policyStart + 1)) "severity"
        if sv.isEmpty then "medium" else sv

/-- `std::set<std::string>::insert`: sorted insert without duplicates. -/
def strSetInsert : List String → String → List String
  | [], p => [p]
  | x :: t, p => if p = x then x :: t else if p < x then p :: x :: t else x :: strSetInsert t p

/-- `DLPAgent::ApplyPolicyBundle` (lines 2363-2580).  The flags and the
file / clipboard / USB rule lists and monitored directories are cleared
FIRST (lines 2369-2376); only then is the `"policies"` key looked up, so
nothing is restored when the bundle is malformed.  `usbTransferPolicies`
is cleared only inside the well-formed branch (line 2453) and therefore
survives a malformed bundle, though its `hasUsbTransferPolicies` flag
does not.  `fs` supplies the `fs::exists` checks on monitored paths;
`usbBlockingActive` becomes whether some enabled parsed USB rule blocks
a connect-class event (lines 2402-2435, 2477-2490). -/
def ApplyPolicyBundle (st : AgentState) (fs : Fs) (bundleJson : String) : AgentState :=
  let st0 := { st with
    hasFilePolices := false, hasClipboardPolicies := false,
    hasUsbDevicePolicies := false, hasUsbTransferPolicies := false,
    filePolicies := [], clipboardPolicies := [], usbPolicies := [],
    monitoredDirectories := [] }
  let st1 :=
    match strFind bundleJson "\"policies\"" with
    | none => st0
    | some policiesPos =>
      match strFindFrom bundleJson "\x7b" policiesPos with
      | none => st0
      | some _ =>
        let fileP := ParsePolicyArray bundleJson "file_system_monitoring"
        let clipP := ParsePolicyArray bundleJson "clipboard_monitoring"
        let usbP := ParsePolicyArray bundleJson "usb_device_monitoring"
        let newUsbBlocking :=
          if !usbP.isEmpty then
            usbP.any (fun p => p.enabled &&
              p.monitoredEvents.any
                (fun evt => evt = "usb_connect" || evt = "all" || evt = "*") &&
              p.action = "block")
          else false
        let transferRules := ParsePolicyArray bundleJson "usb_file_transfer_monitoring"
        let usbTransferP := transferRules.map (fun (rule : PolicyRule) =>
          ({ policyId := rule.policyId, name := rule.name, action := rule.action,
             severity := ExtractSeverityFromPolicyJson bundleJson rule.policyId,
             monitoredPaths := rule.monitoredPaths,
             quarantinePath := rule.quarantinePath,
             enabled := rule.enabled } : USBFileTransferPolicy))
        let fileTransferP := ParsePolicyArray bundleJson "file_transfer_monitoring"
        { st0 with
          filePolicies := fileP ++ fileTransferP,
          hasFilePolices := !fileP.isEmpty || !fileTransferP.isEmpty,
          clipboardPolicies := clipP,
          hasClipboardPolicies := !clipP.isEmpty,
          usbPolicies := usbP,
          hasUsbDevicePolicies := !usbP.isEmpty,
          usbTransferPolicies := usbTransferP,
          hasUsbTransferPolicies := !transferRules.isEmpty,
          usbBlockingActive := newUsbBlocking }
  let monitored := st1.filePolicies.foldl (fun (acc : List String) (policy : PolicyRule) =>
    policy.monitoredPaths.foldl (fun (acc2 : List String) (path : String) =>
      let normalized := NormalizeFilesystemPath path
      if !normalized.isEmpty && fsExists fs normalized then strSetInsert acc2 normalized
      else acc2) acc) []
  let version :=
    match strFind bundleJson "\"version\"" with
    | none => st1.activePolicyVersion
    | some versionPos =>
      match strFindFrom bundleJson ":" versionPos with
      | none => st1.activePolicyVersion
      | some colonPos =>
        match strFindFrom bundleJson "\"" colonPos with
        | none => st1.activePolicyVersion
        | some quoteStart =>
          match strFindFrom bundleJson "\"" (quoteStart + 1) with
          | none => st1.activePolicyVersion
          | some quoteEnd => strSubstr bundleJson (quoteStart + 1) (quoteEnd - quoteStart - 1)
  { st1 with
    monitoredDirectories := monitored,
    activePolicyVersion := version,
    allowEvents := st1.hasFilePolices || st1.hasClipboardPolicies ||
      st1.hasUsbDevicePolicies || st1.hasUsbTransferPolicies }

/-- C3, corrected.  Applying a policy bundle is NOT all-or-nothing: the
flags, rule lists and monitored directories are cleared before the
bundle is examined, so a malformed bundle (here: one with no
`"policies"` key) leaves the agent with an EMPTY active policy set and
events disabled, not with the previously active set.  Only the stale
`usbTransferPolicies` list survives, with its flag off. -/
theorem C3_malformed_bundle_clears_policies (st : AgentState) (fs : Fs)
    (bundleJson : String)
    (hmal : strFind bundleJson "\"policies\"" = none) :
    (ApplyPolicyBundle st fs bundleJson).filePolicies = [] ∧
    (ApplyPolicyBundle st fs bundleJson).clipboardPolicies = [] ∧
    (ApplyPolicyBundle st fs bundleJson).usbPolicies = [] ∧
    (ApplyPolicyBundle st fs bundleJson).monitoredDirectories = [] ∧
    (ApplyPolicyBundle st fs bundleJson).hasFilePolices = false ∧
    (ApplyPolicyBundle st fs bundleJson).hasClipboardPolicies = false ∧
    (ApplyPolicyBundle st fs bundleJson).hasUsbDevicePolicies = false ∧
    (ApplyPolicyBundle st fs bundleJson).hasUsbTransferPolicies = false ∧
    (ApplyPolicyBundle st fs bundleJson).allowEvents = false ∧
    (ApplyPolicyBundle st fs bundleJson).usbTransferPolicies = st.usbTransferPolicies := by
  unfold ApplyPolicyBundle
  simp [hmal]

/-- Witness for C3 at a concrete prior state and malformed bundle. -/
theorem C3_malformed_bundle_clears_policies_witness :
    strFind "no policy payload" "\"policies\"" = none ∧
    ((ApplyPolicyBundle stBenign [] "no policy payload").filePolicies = [] ∧
     (ApplyPolicyBundle stBenign [] "no policy payload").clipboardPolicies = [] ∧
     (ApplyPolicyBundle stBenign [] "no policy payload").usbPolicies = [] ∧
     (ApplyPolicyBundle stBenign [] "no policy payload").monitoredDirectories = [] ∧
     (ApplyPolicyBundle stBenign [] "no policy payload").hasFilePolices = false ∧
     (ApplyPolicyBundle stBenign [] "no policy payload").hasClipboardPolicies = false ∧
     (ApplyPolicyBundle stBenign [] "no policy payload").hasUsbDevicePolicies = false ∧
     (ApplyPolicyBundle stBenign [] "no policy payload").hasUsbTransferPolicies = false ∧
     (ApplyPolicyBundle stBenign [] "no policy payload").allowEvents = false ∧
     (ApplyPolicyBundle stBenign [] "no policy payload").usbTransferPolicies =
       stBenign.usbTransferPolicies) :=
  ⟨by decide, C3_malformed_bundle_clears_policies stBenign [] "no policy payload" (by decide)⟩

/-- C3 counterexample to "the previously active policy set remains in
force on error": a state with an active file rule, fed a bundle with no
`"policies"` key, ends with no file policies and events disabled. -/
theorem C3_counterexample :
    stBenign.filePolicies = [ssnQuarantineRule] ∧
    (ApplyPolicyBundle stBenign [] "no policy payload").filePolicies = [] ∧
    (ApplyPolicyBundle stBenign [] "no policy payload").allowEvents = false := by
  refine ⟨rfl, by decide, by decide⟩

/-! ### USB file-transfer monitoring -/

/-- `FileMetadata`: the identity fields the transfer monitor reads
(sizes and times are never compared by the detection logic). -/
structure FileMetadata where
  name : String := ""
  relativePath : String := ""
  fullPath : String := ""
  deriving Repr, DecidableEq

/-- `std::map<std::string, A>` insert: sorted by key, overwriting. -/
def stateMapInsert {α : Type} : List (String × α) → String → α → List (String × α)
  | [], k, v => [(k, v)]
  | (k1, v1) :: t, k, v =>
    if k = k1 then (k, v) :: t
    else if k < k1 then (k, v) :: (k1, v1) :: t
    else (k1, v1) :: stateMapInsert t k v

def stateMapFind {α : Type} (m : List (String × α)) (k : String) : Option α :=
  (m.find? (fun e => e.1 = k)).map (fun e => e.2)

/-- Mutable members of the USB transfer monitor: `monitoredFiles` keyed
`monitoredPath:relativePath`, `currentUSBFileState` keyed
`drivePath:fileName`, and the quarantined-file name set. -/
structure UsbTransferState where
  monitoredFiles : List (String × FileMetadata) := []
  currentUSBFileState : List (String × Bool) := []
  quarantinedUSBFiles : List String := []
  deriving Repr, DecidableEq

/-- `DLPAgent::GetRelativePathUSB` (lines 1784-1796). -/
def GetRelativePathUSB (fullPath basePath : String) : String :=
  let nf := NormalizeFilesystemPath fullPath
  let nb := NormalizeFilesystemPath basePath
  if nb.data.isPrefixOf nf.data then
    match nf.data.drop nb.data.length with
    | c :: t => if c = '\\' || c = '/' then String.mk t else String.mk (c :: t)
    | [] => ""
  else fullPath

/-- `DLPAgent::ScanDirectoryRecursiveUSB` (lines 1798-1814): every
regular file below `dir`, as (filename, path relative to `basePath`). -/
def ScanDirectoryRecursiveUSB (fs : Fs) (dir basePath : String) :
    List (String × String) :=
  fs.filterMap (fun e =>
    if (dir ++ "\\").data.isPrefixOf e.1.data then
      some (pathFilename e.1, GetRelativePathUSB e.1 basePath)
    else none)

/-- `DLPAgent::MarkExistingUSBFilesAsProcessed` (lines 5104-5144): every
file already on the newly observed drive whose NAME matches a tracked
file is marked present under the key `drivePath:fileName`. -/
def MarkExistingUSBFilesAsProcessed (ust : UsbTransferState) (fs : Fs)
    (drivePath : String) : UsbTransferState :=
  let existingFiles := ScanDirectoryRecursiveUSB fs drivePath drivePath
  { ust with currentUSBFileState :=
      existingFiles.foldl (fun m filePair =>
        if ust.monitoredFiles.any (fun mp => mp.2.name = filePair.1) then
          stateMapInsert m (drivePath ++ ":" ++ filePair.1) true
        else m) ust.currentUSBFileState }

/-- `SendUSBTransferEvent` (lines 2079-2140): one envelope with subtype
`usb_file_transfer` through the `SendEvent` gate. -/
def SendUSBTransferEvent (st : AgentState)
    (relativePath usbFile monitoredPath action severity policyId : String) :
    List Envelope :=
  let _ := usbFile
  let _ := monitoredPath
  emitted st
    { eventType := "usb", eventSubtype := "usb_file_transfer",
      severity := severity, action := action, filePath := relativePath,
      fileName := pathFilename relativePath, matchedPolicies := [policyId] }

/-- The restore thread a USB quarantine detaches (lines 5724-5748). -/
structure UsbRestoreTask where
  delayMinutes : Nat
  quarantineFile : String
  monitoredFile : String
  fileName : String
  deriving Repr, DecidableEq

/-- Result of one USB transfer handler or drive sweep. -/
structure UsbCheckResult where
  ust : UsbTransferState
  fs : Fs
  sent : List Envelope
  restores : List UsbRestoreTask
  enforcements : List (String × String)
  deriving Repr, DecidableEq

/-- `HandleUSBFileTransferAlertNoTimestamp` (lines 5569-5591): returns
silently unless the file exists at the DRIVE ROOT `usbPath\fileName`. -/
def HandleUSBFileTransferAlertNoTimestamp (st : AgentState)
    (ust : UsbTransferState) (fs : Fs)
    (fileName relativePath usbPath monitoredPath : String)
    (policy : USBFileTransferPolicy) : UsbCheckResult :=
  let usbFile := usbPath ++ "\\" ++ fileName
  if !fsExists fs usbFile then ⟨ust, fs, [], [], []⟩
  else ⟨ust, fs,
    SendUSBTransferEvent st relativePath usbFile monitoredPath "alerted"
      policy.severity policy.policyId, [], []⟩

/-- `HandleUSBFileTransferBlockNoTimestamp` (lines 5592-5668): same
root-only existence gate; a copy is deleted from the USB, a move is
copied back to the monitored directory and deleted from the USB. -/
def HandleUSBFileTransferBlockNoTimestamp (st : AgentState)
    (ust : UsbTransferState) (fs : Fs)
    (fileName relativePath usbPath monitoredPath : String)
    (policy : USBFileTransferPolicy) : UsbCheckResult :=
  let usbFile := usbPath ++ "\\" ++ fileName
  let monitoredFile := monitoredPath ++ "\\" ++ relativePath
  if !fsExists fs usbFile then ⟨ust, fs, [], [], []⟩
  else if fsExists fs monitoredFile then
    ⟨ust, fsRemove fs usbFile,
      SendUSBTransferEvent st relativePath usbFile monitoredPath "blocked_copy"
        policy.severity policy.policyId, [], []⟩
  else
    ⟨ust, fsRemove (fsWrite fs monitoredFile ((fsRead fs usbFile).getD "")) usbFile,
      SendUSBTransferEvent st relativePath usbFile monitoredPath "blocked_move"
        policy.severity policy.policyId, [], []⟩

/-- `HandleUSBFileTransferQuarantineNoTimestamp` (lines 5669-5759):
root-only existence gate; the source (copy) or USB (move) file is
renamed into the policy quarantine folder and a 2-minute restore is
scheduled. -/
def HandleUSBFileTransferQuarantineNoTimestamp (st : AgentState)
    (ust : UsbTransferState) (fs : Fs)
    (fileName relativePath usbPath monitoredPath : String)
    (policy : USBFileTransferPolicy) (now : Nat) : UsbCheckResult :=
  let usbFile := usbPath ++ "\\" ++ fileName
  let monitoredFile := monitoredPath ++ "\\" ++ relativePath
  let quarantineRoot :=
    if policy.quarantinePath.isEmpty then "C:\\Quarantine" else policy.quarantinePath
  let quarantineFile := quarantineRoot ++ "\\" ++ fileName ++ "_" ++ toString now
  if !fsExists fs usbFile then ⟨ust, fs, [], [], []⟩
  else if fsExists fs monitoredFile then
    ⟨{ ust with quarantinedUSBFiles := setInsert ust.quarantinedUSBFiles fileName },
      fsRemove (fsRename fs monitoredFile quarantineFile) usbFile,
      SendUSBTransferEvent st relativePath usbFile monitoredPath "quarantined_copy"
        policy.severity policy.policyId,
      [⟨2, quarantineFile, monitoredFile, fileName⟩], []⟩
  else
    ⟨{ ust with quarantinedUSBFiles := setInsert ust.quarantinedUSBFiles fileName },
      fsRename fs usbFile quarantineFile,
      SendUSBTransferEvent st relativePath usbFile monitoredPath "quarantined_move"
        policy.severity policy.policyId,
      [⟨2, quarantineFile, monitoredFile, fileName⟩], []⟩

/-- The restore thread body: rename the quarantined copy back when it
still exists and unmark the file name. -/
def runUsbRestoreTask (ust : UsbTransferState) (fs : Fs) (task : UsbRestoreTask) :
    UsbTransferState × Fs :=
  if fsExists fs task.quarantineFile then
    ({ ust with quarantinedUSBFiles := setErase ust.quarantinedUSBFiles task.fileName },
      fsRename fs task.quarantineFile task.monitoredFile)
  else (ust, fs)

/-- First monitored path of `policy` that prefixes `fullPath`, normalized
(lines 5216-5223). -/
def usbMatchedPath (policy : USBFileTransferPolicy) (fullPath : String) : String :=
  match policy.monitoredPaths.find?
      (fun mp => (NormalizeFilesystemPath mp).data.isPrefixOf fullPath.data) with
  | some mp => NormalizeFilesystemPath mp
  | none => ""

/-- The file names found on the drive by the sweep's recursive scan
(line 5173 plus the set built at lines 5178-5181). -/
def usbScanNames (fs : Fs) (drivePath : String) : List String :=
  (ScanDirectoryRecursiveUSB fs drivePath drivePath).map (fun fp => fp.1)

/-- The policy dispatch loop of lines 5209-5240: the FIRST enabled
policy whose normalized monitored path prefixes the tracked file's
source path; the `break` at 5239 means no later policy is consulted. -/
def usbPolicyFor (st : AgentState) (fullPath : String) : Option USBFileTransferPolicy :=
  st.usbTransferPolicies.find? (fun policy => policy.enabled &&
    policy.monitoredPaths.any
      (fun mp => (NormalizeFilesystemPath mp).data.isPrefixOf fullPath.data))

/-- The per-tracked-file body of `CheckUSBDriveForMonitoredFiles`
(lines 5184-5248): a false-to-true change of `drivePath:fileName`
presence (by NAME anywhere on the drive) marks the state true and runs
the handler of the first matching policy, recorded in `enforcements`;
a true-to-false change just marks the state false. -/
def checkUSBFileStep (st : AgentState) (drivePath : String)
    (currentFilesOnUSB : List String) (now : Nat)
    (acc : UsbCheckResult) (entry : String × FileMetadata) : UsbCheckResult :=
  let meta := entry.2
  let fileName := meta.name
  let fileKey := drivePath ++ ":" ++ fileName
  let isOnUSBNow := currentFilesOnUSB.contains fileName
  let wasOnUSBBefore := (stateMapFind acc.ust.currentUSBFileState fileKey).getD false
  if isOnUSBNow && !wasOnUSBBefore then
    let ust1 := { acc.ust with
      currentUSBFileState := stateMapInsert acc.ust.currentUSBFileState fileKey true }
    match usbPolicyFor st meta.fullPath with
    | none => { acc with ust := ust1 }
    | some policy =>
      let mpath := usbMatchedPath policy meta.fullPath
      if policy.action = "block" then
        let r := HandleUSBFileTransferBlockNoTimestamp st ust1 acc.fs fileName
          meta.relativePath drivePath mpath policy
        ⟨r.ust, r.fs, acc.sent ++ r.sent, acc.restores ++ r.restores,
          acc.enforcements ++ [("block", policy.policyId)]⟩
      else if policy.action = "quarantine" then
        let r := HandleUSBFileTransferQuarantineNoTimestamp st ust1 acc.fs fileName
          meta.relativePath drivePath mpath policy now
        ⟨r.ust, r.fs, acc.sent ++ r.sent, acc.restores ++ r.restores,
          acc.enforcements ++ [("quarantine", policy.policyId)]⟩
      else if policy.action = "alert" then
        let r := HandleUSBFileTransferAlertNoTimestamp st ust1 acc.fs fileName
          meta.relativePath drivePath mpath policy
        ⟨r.ust, r.fs, acc.sent ++ r.sent, acc.restores ++ r.restores,
          acc.enforcements ++ [("alert", policy.policyId)]⟩
      else { acc with ust := ust1 }
  else if !isOnUSBNow && wasOnUSBBefore then
    { acc with ust := { acc.ust with
        currentUSBFileState := stateMapInsert acc.ust.currentUSBFileState fileKey false } }
  else acc

/-- `DLPAgent::CheckUSBDriveForMonitoredFiles` (lines 5146-5256): one
scan of the drive, then the per-file step over EVERY tracked file. -/
def CheckUSBDriveForMonitoredFiles (st : AgentState) (ust : UsbTransferState)
    (fs : Fs) (drivePath : String) (now : Nat) : UsbCheckResult :=
  ust.monitoredFiles.foldl
    (checkUSBFileStep st drivePath (usbScanNames fs drivePath) now)
    ⟨ust, fs, [], [], []⟩

/-! ### Map and sweep lemmas for the USB transfer monitor -/

theorem stateMapFind_insert_self {α : Type} (m : List (String × α)) (k : String) (v : α) :
    stateMapFind (stateMapInsert m k v) k = some v := by
  induction m with
  | nil => simp [stateMapInsert, stateMapFind]
  | cons e t ih =>
    obtain ⟨k1, v1⟩ := e
    by_cases h1 : k = k1
    · simp [stateMapInsert, stateMapFind, h1]
    · by_cases h2 : k < k1
      · simp [stateMapInsert, stateMapFind, h1, h2]
      · simp only [stateMapInsert, if_neg h1, if_neg h2]
        simp only [stateMapFind, List.find?_cons]
        have hne : (decide (k1 = k)) = false := decide_eq_false (fun hh => h1 hh.symm)
        simp only [hne]
        exact ih

theorem stateMapFind_insert_ne {α : Type} (m : List (String × α)) (k k2 : String) (v : α)
    (h : k2 ≠ k) :
    stateMapFind (stateMapInsert m k v) k2 = stateMapFind m k2 := by
  have hkk : (decide (k = k2)) = false := decide_eq_false (fun hh => h hh.symm)
  induction m with
  | nil => simp [stateMapInsert, stateMapFind, hkk]
  | cons e t ih =>
    obtain ⟨k1, v1⟩ := e
    by_cases h1 : k = k1
    · subst h1
      simp [stateMapInsert, stateMapFind, List.find?_cons, hkk]
    · by_cases h2 : k < k1
      · simp only [stateMapInsert, if_neg h1, if_pos h2]
        simp [stateMapFind, List.find?_cons, hkk]
      · simp only [stateMapInsert, if_neg h1, if_neg h2]
        simp only [stateMapFind, List.find?_cons] at ih ⊢
        cases hk : decide (k1 = k2) with
        | true => simp [hk]
        | false => simp only [hk]; exact ih

/-- Once a key maps to `true`, the marking fold keeps it `true`. -/
theorem usbMarkFold_preserves (mon : List (String × FileMetadata)) (drivePath nm : String) :
    ∀ (l : List (String × String)) (m : List (String × Bool)),
    stateMapFind m (drivePath ++ ":" ++ nm) = some true →
    stateMapFind (l.foldl (fun m2 filePair =>
      if mon.any (fun mp => mp.2.name = filePair.1) then
        stateMapInsert m2 (drivePath ++ ":" ++ filePair.1) true
      else m2) m) (drivePath ++ ":" ++ nm) = some true := by
  intro l
  induction l with
  | nil => intro m hm; simpa using hm
  | cons fp t ih =>
    intro m hm
    simp only [List.foldl_cons]
    refine ih _ ?_
    by_cases hc : mon.any (fun mp => mp.2.name = fp.1) = true
    · simp only [hc, if_true]
      by_cases hk : (drivePath ++ ":" ++ nm) = (drivePath ++ ":" ++ fp.1)
      · rw [hk, stateMapFind_insert_self]
      · rw [stateMapFind_insert_ne _ _ _ _ hk]
        exact hm
    · simp only [Bool.not_eq_true] at hc
      simp only [hc, Bool.false_eq_true, if_false]
      exact hm

/-- If some scanned file bears the tracked name, the marking fold ends
with the key `drivePath:nm` mapped to `true`. -/
theorem usbMarkFold_found (mon : List (String × FileMetadata)) (drivePath nm : String)
    (hany : mon.any (fun mp => mp.2.name = nm) = true) :
    ∀ (l : List (String × String)) (m : List (String × Bool)),
    nm ∈ l.map (fun fp => fp.1) →
    stateMapFind (l.foldl (fun m2 filePair =>
      if mon.any (fun mp => mp.2.name = filePair.1) then
        stateMapInsert m2 (drivePath ++ ":" ++ filePair.1) true
      else m2) m) (drivePath ++ ":" ++ nm) = some true := by
  intro l
  induction l with
  | nil => intro m hm; simp at hm
  | cons fp t ih =>
    intro m hm
    simp only [List.map_cons, List.mem_cons] at hm
    simp only [List.foldl_cons]
    rcases hm with hm | hm
    · have hc : mon.any (fun mp => mp.2.name = fp.1) = true := by
        rw [← hm]; exact hany
      simp only [hc, if_true]
      refine usbMarkFold_preserves mon drivePath nm t _ ?_
      rw [hm, stateMapFind_insert_self]
    · exact ih _ hm

/-- A file already present on a newly observed drive is marked present by
the pre-existing sweep. -/
theorem markExisting_find (ust : UsbTransferState) (fs : Fs) (drivePath nm : String)
    (hany : ust.monitoredFiles.any (fun mp => mp.2.name = nm) = true)
    (hmem : nm ∈ (ScanDirectoryRecursiveUSB fs drivePath drivePath).map (fun fp => fp.1)) :
    stateMapFind (MarkExistingUSBFilesAsProcessed ust fs drivePath).currentUSBFileState
      (drivePath ++ ":" ++ nm) = some true := by
  unfold MarkExistingUSBFilesAsProcessed
  exact usbMarkFold_found ust.monitoredFiles drivePath nm hany _ _ hmem

/-- `++` on strings cancels a shared prefix. -/
theorem strAppend_left_cancel (s a b : String) (h : s ++ a = s ++ b) : a = b := by
  obtain ⟨sd⟩ := s
  obtain ⟨ad⟩ := a
  obtain ⟨bd⟩ := b
  have hd : sd ++ ad = sd ++ bd := congrArg String.data h
  exact congrArg String.mk (List.append_cancel_left hd)

/-- `HandleUSBFileTransferBlockNoTimestamp` leaves the presence map
alone and emits exactly one `usb_file_transfer` envelope iff the file
exists at the drive root. -/
theorem blockHandler_parts (st : AgentState) (ust : UsbTransferState) (fs : Fs)
    (fileName relativePath usbPath monitoredPath : String)
    (policy : USBFileTransferPolicy) (hallow : st.allowEvents = true) :
    (HandleUSBFileTransferBlockNoTimestamp st ust fs fileName relativePath usbPath
      monitoredPath policy).ust.currentUSBFileState = ust.currentUSBFileState ∧
    (HandleUSBFileTransferBlockNoTimestamp st ust fs fileName relativePath usbPath
      monitoredPath policy).sent.length =
      (if fsExists fs (usbPath ++ "\\" ++ fileName) then 1 else 0) ∧
    (∀ e ∈ (HandleUSBFileTransferBlockNoTimestamp st ust fs fileName relativePath
        usbPath monitoredPath policy).sent, e.eventSubtype = "usb_file_transfer") := by
  unfold HandleUSBFileTransferBlockNoTimestamp
  by_cases h1 : fsExists fs (usbPath ++ "\\" ++ fileName) <;>
    by_cases h2 : fsExists fs (monitoredPath ++ "\\" ++ relativePath) <;>
    simp_all [SendUSBTransferEvent, emitted, SendEvent, hallow]

/-- Same statement for the quarantine handler. -/
theorem quarantineHandler_parts (st : AgentState) (ust : UsbTransferState) (fs : Fs)
    (fileName relativePath usbPath monitoredPath : String)
    (policy : USBFileTransferPolicy) (now : Nat) (hallow : st.allowEvents = true) :
    (HandleUSBFileTransferQuarantineNoTimestamp st ust fs fileName relativePath usbPath
      monitoredPath policy now).ust.currentUSBFileState = ust.currentUSBFileState ∧
    (HandleUSBFileTransferQuarantineNoTimestamp st ust fs fileName relativePath usbPath
      monitoredPath policy now).sent.length =
      (if fsExists fs (usbPath ++ "\\" ++ fileName) then 1 else 0) ∧
    (∀ e ∈ (HandleUSBFileTransferQuarantineNoTimestamp st ust fs fileName relativePath
        usbPath monitoredPath policy now).sent, e.eventSubtype = "usb_file_transfer") := by
  unfold HandleUSBFileTransferQuarantineNoTimestamp
  by_cases h1 : fsExists fs (usbPath ++ "\\" ++ fileName) <;>
    by_cases h2 : fsExists fs (monitoredPath ++ "\\" ++ relativePath) <;>
    simp_all [SendUSBTransferEvent, emitted, SendEvent, hallow]

/-- Same statement for the alert handler. -/
theorem alertHandler_parts (st : AgentState) (ust : UsbTransferState) (fs : Fs)
    (fileName relativePath usbPath monitoredPath : String)
    (policy : USBFileTransferPolicy) (hallow : st.allowEvents = true) :
    (HandleUSBFileTransferAlertNoTimestamp st ust fs fileName relativePath usbPath
      monitoredPath policy).ust.currentUSBFileState = ust.currentUSBFileState ∧
    (HandleUSBFileTransferAlertNoTimestamp st ust fs fileName relativePath usbPath
      monitoredPath policy).sent.length =
      (if fsExists fs (usbPath ++ "\\" ++ fileName) then 1 else 0) ∧
    (∀ e ∈ (HandleUSBFileTransferAlertNoTimestamp st ust fs fileName relativePath
        usbPath monitoredPath policy).sent, e.eventSubtype = "usb_file_transfer") := by
  unfold HandleUSBFileTransferAlertNoTimestamp
  by_cases h1 : fsExists fs (usbPath ++ "\\" ++ fileName) <;>
    simp_all [SendUSBTransferEvent, emitted, SendEvent, hallow]

/-- The block handler never touches the presence map. -/
theorem blockHandler_ustState (st : AgentState) (ust : UsbTransferState) (fs : Fs)
    (fileName relativePath usbPath monitoredPath : String)
    (policy : USBFileTransferPolicy) :
    (HandleUSBFileTransferBlockNoTimestamp st ust fs fileName relativePath usbPath
      monitoredPath policy).ust.currentUSBFileState = ust.currentUSBFileState := by
  by_cases h1 : fsExists fs (usbPath ++ "\\" ++ fileName) <;>
    by_cases h2 : fsExists fs (monitoredPath ++ "\\" ++ relativePath) <;>
    simp [HandleUSBFileTransferBlockNoTimestamp, h1, h2]

/-- The quarantine handler never touches the presence map. -/
theorem quarantineHandler_ustState (st : AgentState) (ust : UsbTransferState) (fs : Fs)
    (fileName relativePath usbPath monitoredPath : String)
    (policy : USBFileTransferPolicy) (now : Nat) :
    (HandleUSBFileTransferQuarantineNoTimestamp st ust fs fileName relativePath usbPath
      monitoredPath policy now).ust.currentUSBFileState = ust.currentUSBFileState := by
  by_cases h1 : fsExists fs (usbPath ++ "\\" ++ fileName) <;>
    by_cases h2 : fsExists fs (monitoredPath ++ "\\" ++ relativePath) <;>
    simp [HandleUSBFileTransferQuarantineNoTimestamp, h1, h2]

/-- The alert handler never touches the presence map. -/
theorem alertHandler_ustState (st : AgentState) (ust : UsbTransferState) (fs : Fs)
    (fileName relativePath usbPath monitoredPath : String)
    (policy : USBFileTransferPolicy) :
    (HandleUSBFileTransferAlertNoTimestamp st ust fs fileName relativePath usbPath
      monitoredPath policy).ust.currentUSBFileState = ust.currentUSBFileState := by
  by_cases h1 : fsExists fs (usbPath ++ "\\" ++ fileName) <;>
    simp [HandleUSBFileTransferAlertNoTimestamp, h1]

/-- With events allowed, the block handler emits exactly one envelope
iff the file exists at the drive root. -/
theorem blockHandler_sentLength (st : AgentState) (ust : UsbTransferState) (fs : Fs)
    (fileName relativePath usbPath monitoredPath : String)
    (policy : USBFileTransferPolicy) (hallow : st.allowEvents = true) :
    (HandleUSBFileTransferBlockNoTimestamp st ust fs fileName relativePath usbPath
      monitoredPath policy).sent.length =
      (if fsExists fs (usbPath ++ "\\" ++ fileName) then 1 else 0) := by
  by_cases h1 : fsExists fs (usbPath ++ "\\" ++ fileName) <;>
    by_cases h2 : fsExists fs (monitoredPath ++ "\\" ++ relativePath) <;>
    simp [HandleUSBFileTransferBlockNoTimestamp, SendUSBTransferEvent, emitted,
      SendEvent, hallow, h1, h2]

theorem quarantineHandler_sentLength (st : AgentState) (ust : UsbTransferState) (fs : Fs)
    (fileName relativePath usbPath monitoredPath : String)
    (policy : USBFileTransferPolicy) (now : Nat) (hallow : st.allowEvents = true) :
    (HandleUSBFileTransferQuarantineNoTimestamp st ust fs fileName relativePath usbPath
      monitoredPath policy now).sent.length =
      (if fsExists fs (usbPath ++ "\\" ++ fileName) then 1 else 0) := by
  by_cases h1 : fsExists fs (usbPath ++ "\\" ++ fileName) <;>
    by_cases h2 : fsExists fs (monitoredPath ++ "\\" ++ relativePath) <;>
    simp [HandleUSBFileTransferQuarantineNoTimestamp, SendUSBTransferEvent, emitted,
      SendEvent, hallow, h1, h2]

theorem alertHandler_sentLength (st : AgentState) (ust : UsbTransferState) (fs : Fs)
    (fileName relativePath usbPath monitoredPath : String)
    (policy : USBFileTransferPolicy) (hallow : st.allowEvents = true) :
    (HandleUSBFileTransferAlertNoTimestamp st ust fs fileName relativePath usbPath
      monitoredPath policy).sent.length =
      (if fsExists fs (usbPath ++ "\\" ++ fileName) then 1 else 0) := by
  by_cases h1 : fsExists fs (usbPath ++ "\\" ++ fileName) <;>
    simp [HandleUSBFileTransferAlertNoTimestamp, SendUSBTransferEvent, emitted,
      SendEvent, hallow, h1]

/-- Every envelope a transfer handler emits has subtype `usb_file_transfer`. -/
theorem blockHandler_sentSubtype (st : AgentState) (ust : UsbTransferState) (fs : Fs)
    (fileName relativePath usbPath monitoredPath : String)
    (policy : USBFileTransferPolicy) :
    ∀ e ∈ (HandleUSBFileTransferBlockNoTimestamp st ust fs fileName relativePath
        usbPath monitoredPath policy).sent, e.eventSubtype = "usb_file_transfer" := by
  intro e he
  by_cases h1 : fsExists fs (usbPath ++ "\\" ++ fileName) <;>
    by_cases h2 : fsExists fs (monitoredPath ++ "\\" ++ relativePath) <;>
    simp_all [HandleUSBFileTransferBlockNoTimestamp, SendUSBTransferEvent, emitted,
      SendEvent, h1, h2] <;>
    (rcases hse : (!st.allowEvents : Bool) with _ | _ <;> simp_all)

theorem quarantineHandler_sentSubtype (st : AgentState) (ust : UsbTransferState) (fs : Fs)
    (fileName relativePath usbPath monitoredPath : String)
    (policy : USBFileTransferPolicy) (now : Nat) :
    ∀ e ∈ (HandleUSBFileTransferQuarantineNoTimestamp st ust fs fileName relativePath
        usbPath monitoredPath policy now).sent, e.eventSubtype = "usb_file_transfer" := by
  intro e he
  by_cases h1 : fsExists fs (usbPath ++ "\\" ++ fileName) <;>
    by_cases h2 : fsExists fs (monitoredPath ++ "\\" ++ relativePath) <;>
    simp_all [HandleUSBFileTransferQuarantineNoTimestamp, SendUSBTransferEvent, emitted,
      SendEvent, h1, h2] <;>
    (rcases hse : (!st.allowEvents : Bool) with _ | _ <;> simp_all)

theorem alertHandler_sentSubtype (st : AgentState) (ust : UsbTransferState) (fs : Fs)
    (fileName relativePath usbPath monitoredPath : String)
    (policy : USBFileTransferPolicy) :
    ∀ e ∈ (HandleUSBFileTransferAlertNoTimestamp st ust fs fileName relativePath
        usbPath monitoredPath policy).sent, e.eventSubtype = "usb_file_transfer" := by
  intro e he
  by_cases h1 : fsExists fs (usbPath ++ "\\" ++ fileName) <;>
    simp_all [HandleUSBFileTransferAlertNoTimestamp, SendUSBTransferEvent, emitted,
      SendEvent, h1]
  all_goals (rcases hse : (!st.allowEvents : Bool) with _ | _ <;> simp_all)

/-- Under a false-to-true transition the step always records the file as
present, whatever the policy table holds. -/
theorem checkUSBFileStep_currentState (st : AgentState) (drivePath : String)
    (names : List String) (now : Nat) (acc : UsbCheckResult)
    (k0 : String) (meta : FileMetadata)
    (hnow : names.contains meta.name = true)
    (hbefore : (stateMapFind acc.ust.currentUSBFileState
      (drivePath ++ ":" ++ meta.name)).getD false = false) :
    (checkUSBFileStep st drivePath names now acc (k0, meta)).ust.currentUSBFileState =
      stateMapInsert acc.ust.currentUSBFileState (drivePath ++ ":" ++ meta.name) true := by
  have hmem : meta.name ∈ names := List.mem_of_elem_eq_true hnow
  rcases hf : usbPolicyFor st meta.fullPath with _ | policy
  · simp [checkUSBFileStep, hmem, hbefore, hf]
  · simp [checkUSBFileStep, hmem, hbefore, hf, blockHandler_ustState,
      quarantineHandler_ustState, alertHandler_ustState]
    split_ifs <;> simp [blockHandler_ustState, quarantineHandler_ustState,
      alertHandler_ustState]

/-- A false-to-true transition with no matching enabled policy enforces
nothing and emits nothing. -/
theorem checkUSBFileStep_policy_none (st : AgentState) (drivePath : String)
    (names : List String) (now : Nat) (acc : UsbCheckResult)
    (k0 : String) (meta : FileMetadata)
    (hnow : names.contains meta.name = true)
    (hbefore : (stateMapFind acc.ust.currentUSBFileState
      (drivePath ++ ":" ++ meta.name)).getD false = false)
    (hf : usbPolicyFor st meta.fullPath = none) :
    (checkUSBFileStep st drivePath names now acc (k0, meta)).enforcements =
      acc.enforcements ∧
    (checkUSBFileStep st drivePath names now acc (k0, meta)).sent = acc.sent := by
  have hmem : meta.name ∈ names := List.mem_of_elem_eq_true hnow
  simp [checkUSBFileStep, hmem, hbefore, hf]

/-- A false-to-true transition whose first matching enabled policy has an
enforcing action runs that handler EXACTLY ONCE and emits exactly one
`usb_file_transfer` envelope iff the file is at the drive root. -/
theorem checkUSBFileStep_enforcing (st : AgentState) (drivePath : String)
    (names : List String) (now : Nat) (acc : UsbCheckResult)
    (k0 : String) (meta : FileMetadata) (policy : USBFileTransferPolicy)
    (hallow : st.allowEvents = true)
    (hnow : names.contains meta.name = true)
    (hbefore : (stateMapFind acc.ust.currentUSBFileState
      (drivePath ++ ":" ++ meta.name)).getD false = false)
    (hf : usbPolicyFor st meta.fullPath = some policy)
    (hact : policy.action = "block" ∨ policy.action = "quarantine" ∨
      policy.action = "alert") :
    (checkUSBFileStep st drivePath names now acc (k0, meta)).enforcements =
      acc.enforcements ++ [(policy.action, policy.policyId)] ∧
    (checkUSBFileStep st drivePath names now acc (k0, meta)).sent.length =
      acc.sent.length +
        (if fsExists acc.fs (drivePath ++ "\\" ++ meta.name) then 1 else 0) ∧
    (∀ e ∈ (checkUSBFileStep st drivePath names now acc (k0, meta)).sent,
      e ∈ acc.sent ∨ e.eventSubtype = "usb_file_transfer") := by
  have hmem : meta.name ∈ names := List.mem_of_elem_eq_true hnow
  rcases hact with hb | hq | ha
  · refine ⟨?_, ?_, ?_⟩
    · simp [checkUSBFileStep, hmem, hbefore, hf, hb]
    · simp [checkUSBFileStep, hmem, hbefore, hf, hb, List.length_append,
        blockHandler_sentLength, hallow]
    · intro e he
      simp [checkUSBFileStep, hmem, hbefore, hf, hb] at he
      rcases he with he | he
      · exact Or.inl he
      · exact Or.inr (blockHandler_sentSubtype _ _ _ _ _ _ _ _ e he)
  · refine ⟨?_, ?_, ?_⟩
    · simp [checkUSBFileStep, hmem, hbefore, hf, hq]
    · simp [checkUSBFileStep, hmem, hbefore, hf, hq, List.length_append,
        quarantineHandler_sentLength, hallow]
    · intro e he
      simp [checkUSBFileStep, hmem, hbefore, hf, hq] at he
      rcases he with he | he
      · exact Or.inl he
      · exact Or.inr (quarantineHandler_sentSubtype _ _ _ _ _ _ _ _ _ e he)
  · refine ⟨?_, ?_, ?_⟩
    · simp [checkUSBFileStep, hmem, hbefore, hf, ha]
    · simp [checkUSBFileStep, hmem, hbefore, hf, ha, List.length_append,
        alertHandler_sentLength, hallow]
    · intro e he
      simp [checkUSBFileStep, hmem, hbefore, hf, ha] at he
      rcases he with he | he
      · exact Or.inl he
      · exact Or.inr (alertHandler_sentSubtype _ _ _ _ _ _ _ _ e he)

/-- A false-to-true transition whose first matching policy has a
non-enforcing action (e.g. `log`) runs no handler and emits nothing,
and the per-file `break` still skips every later policy. -/
theorem checkUSBFileStep_skip (st : AgentState) (drivePath : String)
    (names : List String) (now : Nat) (acc : UsbCheckResult)
    (k0 : String) (meta : FileMetadata) (policy : USBFileTransferPolicy)
    (hnow : names.contains meta.name = true)
    (hbefore : (stateMapFind acc.ust.currentUSBFileState
      (drivePath ++ ":" ++ meta.name)).getD false = false)
    (hf : usbPolicyFor st meta.fullPath = some policy)
    (hb : policy.action ≠ "block") (hq : policy.action ≠ "quarantine")
    (ha : policy.action ≠ "alert") :
    (checkUSBFileStep st drivePath names now acc (k0, meta)).enforcements =
      acc.enforcements ∧
    (checkUSBFileStep st drivePath names now acc (k0, meta)).sent = acc.sent := by
  have hmem : meta.name ∈ names := List.mem_of_elem_eq_true hnow
  simp [checkUSBFileStep, hmem, hbefore, hf, hb, hq, ha]

/-- Without a false-to-true transition the step enforces nothing, emits
nothing and leaves the filesystem alone. -/
theorem checkUSBFileStep_no_transition (st : AgentState) (drivePath : String)
    (names : List String) (now : Nat) (acc : UsbCheckResult)
    (k0 : String) (meta : FileMetadata)
    (h : names.contains meta.name = false ∨
      (stateMapFind acc.ust.currentUSBFileState
        (drivePath ++ ":" ++ meta.name)).getD false = true) :
    (checkUSBFileStep st drivePath names now acc (k0, meta)).enforcements =
      acc.enforcements ∧
    (checkUSBFileStep st drivePath names now acc (k0, meta)).sent = acc.sent ∧
    (checkUSBFileStep st drivePath names now acc (k0, meta)).fs = acc.fs := by
  rcases h with h | h
  · have hnot : meta.name ∉ names := by
      intro hm
      have hco : names.contains meta.name = true := List.elem_eq_true_of_mem hm
      rw [h] at hco
      exact Bool.noConfusion hco
    simp only [checkUSBFileStep]
    simp [hnot]
    split_ifs
    all_goals exact ⟨rfl, rfl, rfl⟩
  · by_cases hn : names.contains meta.name = true
    · have hmem : meta.name ∈ names := List.mem_of_elem_eq_true hn
      simp [checkUSBFileStep, hmem, h]
    · have hnot : meta.name ∉ names := fun hm =>
        absurd (List.elem_eq_true_of_mem hm : names.contains meta.name = true) hn
      simp only [checkUSBFileStep]
      simp [hnot]
      split_ifs
      all_goals exact ⟨rfl, rfl, rfl⟩

/-- When every tracked file name present on the drive is already marked
present, a whole sweep enforces nothing, emits nothing and leaves the
filesystem alone. -/
theorem usbSweep_no_trigger (st : AgentState) (drivePath : String)
    (names : List String) (now : Nat) :
    ∀ (tbl : List (String × FileMetadata)) (acc : UsbCheckResult),
    (∀ nm, names.contains nm = true → (∃ e ∈ tbl, e.2.name = nm) →
      stateMapFind acc.ust.currentUSBFileState (drivePath ++ ":" ++ nm) = some true) →
    (tbl.foldl (checkUSBFileStep st drivePath names now) acc).enforcements =
      acc.enforcements ∧
    (tbl.foldl (checkUSBFileStep st drivePath names now) acc).sent = acc.sent ∧
    (tbl.foldl (checkUSBFileStep st drivePath names now) acc).fs = acc.fs := by
  intro tbl
  induction tbl with
  | nil => intro acc _; exact ⟨rfl, rfl, rfl⟩
  | cons e rest ih =>
    intro acc hinv
    simp only [List.foldl_cons]
    by_cases hn : names.contains e.2.name = true
    · have hm : e.2.name ∈ names := List.mem_of_elem_eq_true hn
      have hfound : stateMapFind acc.ust.currentUSBFileState
          (drivePath ++ ":" ++ e.2.name) = some true :=
        hinv e.2.name hn ⟨e, List.mem_cons_self e rest, rfl⟩
      have hstep : checkUSBFileStep st drivePath names now acc e = acc := by
        simp [checkUSBFileStep, hm, hfound]
      rw [hstep]
      refine ih acc (fun nm h1 h2 => ?_)
      obtain ⟨e2, he2, hname⟩ := h2
      exact hinv nm h1 ⟨e2, List.mem_cons_of_mem e he2, hname⟩
    · have hnot : e.2.name ∉ names := fun hm =>
        absurd (List.elem_eq_true_of_mem hm : names.contains e.2.name = true) hn
      by_cases hw : (stateMapFind acc.ust.currentUSBFileState
          (drivePath ++ ":" ++ e.2.name)).getD false = true
      · have hstep : checkUSBFileStep st drivePath names now acc e =
            { acc with
              ust := { acc.ust with
                currentUSBFileState :=
                  stateMapInsert acc.ust.currentUSBFileState
                    (drivePath ++ ":" ++ e.2.name) false } } := by
          simp [checkUSBFileStep, hnot, hw]
        rw [hstep]
        refine ih _ (fun nm h1 h2 => ?_)
        have hne : nm ≠ e.2.name := by
          intro hh
          rw [hh] at h1
          exact hn h1
        have hkey : (drivePath ++ ":" ++ nm) ≠ (drivePath ++ ":" ++ e.2.name) :=
          fun hk => hne (strAppend_left_cancel _ _ _ hk)
        obtain ⟨e2, he2, hname⟩ := h2
        have hprev := hinv nm h1 ⟨e2, List.mem_cons_of_mem e he2, hname⟩
        simpa [stateMapFind_insert_ne _ _ _ _ hkey] using hprev
      · have hw2 : (stateMapFind acc.ust.currentUSBFileState
            (drivePath ++ ":" ++ e.2.name)).getD false = false := by
          simpa using hw
        have hstep : checkUSBFileStep st drivePath names now acc e = acc := by
          simp [checkUSBFileStep, hnot, hw2]
        rw [hstep]
        refine ih acc (fun nm h1 h2 => ?_)
        obtain ⟨e2, he2, hname⟩ := h2
        exact hinv nm h1 ⟨e2, List.mem_cons_of_mem e he2, hname⟩

/-- C6, corrected.  For EVERY tracked file, EVERY drive sweep state and
EVERY policy table: a false-to-true transition of the per-drive presence
key `drivePath:fileName` marks the file present and consults exactly the
FIRST enabled policy whose monitored path prefixes the tracked file's
source (the per-file `break` skips all later policies).  When that
policy's action is block, quarantine or alert, exactly ONE enforcement
runs — but the promised `usb_file_transfer` envelope is emitted ONLY
when the file sits at the DRIVE ROOT `drivePath\fileName`: detection
scans the whole drive by name while every handler re-checks existence at
the root alone, so a transfer into a subdirectory consumes the
transition silently; a non-enforcing action (e.g. `log`) runs nothing.
Without a false-to-true transition nothing is enforced or emitted, so a
whole sweep enforces exactly once per transition.  Files already on a
newly observed drive are marked present by the pre-existing sweep, and a
subsequent sweep of the same drive enforces nothing and emits nothing:
the no-retroactive-trigger half of the claim holds.  `allowEvents` is
true whenever the monitor calls the sweep (guard at line 5020). -/
theorem C6_usb_transfer_transition (st : AgentState) (ust : UsbTransferState)
    (fs : Fs) (drivePath : String) (now : Nat)
    (hallow : st.allowEvents = true) :
    CheckUSBDriveForMonitoredFiles st ust fs drivePath now =
      ust.monitoredFiles.foldl
        (checkUSBFileStep st drivePath (usbScanNames fs drivePath) now)
        ⟨ust, fs, [], [], []⟩ ∧
    (∀ (acc : UsbCheckResult) (k0 : String) (meta : FileMetadata),
      (usbScanNames fs drivePath).contains meta.name = true →
      (stateMapFind acc.ust.currentUSBFileState
        (drivePath ++ ":" ++ meta.name)).getD false = false →
      stateMapFind (checkUSBFileStep st drivePath (usbScanNames fs drivePath) now
          acc (k0, meta)).ust.currentUSBFileState
        (drivePath ++ ":" ++ meta.name) = some true) ∧
    (∀ (acc : UsbCheckResult) (k0 : String) (meta : FileMetadata),
      (usbScanNames fs drivePath).contains meta.name = true →
      (stateMapFind acc.ust.currentUSBFileState
        (drivePath ++ ":" ++ meta.name)).getD false = false →
      usbPolicyFor st meta.fullPath = none →
      (checkUSBFileStep st drivePath (usbScanNames fs drivePath) now acc
        (k0, meta)).enforcements = acc.enforcements ∧
      (checkUSBFileStep st drivePath (usbScanNames fs drivePath) now acc
        (k0, meta)).sent = acc.sent) ∧
    (∀ (acc : UsbCheckResult) (k0 : String) (meta : FileMetadata)
      (policy : USBFileTransferPolicy),
      (usbScanNames fs drivePath).contains meta.name = true →
      (stateMapFind acc.ust.currentUSBFileState
        (drivePath ++ ":" ++ meta.name)).getD false = false →
      usbPolicyFor st meta.fullPath = some policy →
      (policy.action = "block" ∨ policy.action = "quarantine" ∨
        policy.action = "alert") →
      (checkUSBFileStep st drivePath (usbScanNames fs drivePath) now acc
        (k0, meta)).enforcements =
        acc.enforcements ++ [(policy.action, policy.policyId)] ∧
      (checkUSBFileStep st drivePath (usbScanNames fs drivePath) now acc
        (k0, meta)).sent.length =
        acc.sent.length +
          (if fsExists acc.fs (drivePath ++ "\\" ++ meta.name) then 1 else 0) ∧
      (∀ e ∈ (checkUSBFileStep st drivePath (usbScanNames fs drivePath) now acc
          (k0, meta)).sent, e ∈ acc.sent ∨ e.eventSubtype = "usb_file_transfer")) ∧
    (∀ (acc : UsbCheckResult) (k0 : String) (meta : FileMetadata)
      (policy : USBFileTransferPolicy),
      (usbScanNames fs drivePath).contains meta.name = true →
      (stateMapFind acc.ust.currentUSBFileState
        (drivePath ++ ":" ++ meta.name)).getD false = false →
      usbPolicyFor st meta.fullPath = some policy →
      policy.action ≠ "block" → policy.action ≠ "quarantine" →
      policy.action ≠ "alert" →
      (checkUSBFileStep st drivePath (usbScanNames fs drivePath) now acc
        (k0, meta)).enforcements = acc.enforcements ∧
      (checkUSBFileStep st drivePath (usbScanNames fs drivePath) now acc
        (k0, meta)).sent = acc.sent) ∧
    (∀ (acc : UsbCheckResult) (k0 : String) (meta : FileMetadata),
      ((usbScanNames fs drivePath).contains meta.name = false ∨
        (stateMapFind acc.ust.currentUSBFileState
          (drivePath ++ ":" ++ meta.name)).getD false = true) →
      (checkUSBFileStep st drivePath (usbScanNames fs drivePath) now acc
        (k0, meta)).enforcements = acc.enforcements ∧
      (checkUSBFileStep st drivePath (usbScanNames fs drivePath) now acc
        (k0, meta)).sent = acc.sent ∧
      (checkUSBFileStep st drivePath (usbScanNames fs drivePath) now acc
        (k0, meta)).fs = acc.fs) ∧
    (∀ nm, ust.monitoredFiles.any (fun mp => mp.2.name = nm) = true →
      nm ∈ (ScanDirectoryRecursiveUSB fs drivePath drivePath).map (fun fp => fp.1) →
      stateMapFind
        (MarkExistingUSBFilesAsProcessed ust fs drivePath).currentUSBFileState
        (drivePath ++ ":" ++ nm) = some true) ∧
    ((CheckUSBDriveForMonitoredFiles st
        (MarkExistingUSBFilesAsProcessed ust fs drivePath) fs drivePath
        now).enforcements = [] ∧
     (CheckUSBDriveForMonitoredFiles st
        (MarkExistingUSBFilesAsProcessed ust fs drivePath) fs drivePath
        now).sent = [] ∧
     (CheckUSBDriveForMonitoredFiles st
        (MarkExistingUSBFilesAsProcessed ust fs drivePath) fs drivePath
        now).fs = fs) := by
  refine ⟨rfl, ?_, ?_, ?_, ?_, ?_, ?_, ?_⟩
  · intro acc k0 meta h1 h2
    rw [checkUSBFileStep_currentState st drivePath (usbScanNames fs drivePath) now acc
      k0 meta h1 h2]
    exact stateMapFind_insert_self _ _ _
  · intro acc k0 meta h1 h2 hf
    exact checkUSBFileStep_policy_none st drivePath (usbScanNames fs drivePath) now acc
      k0 meta h1 h2 hf
  · intro acc k0 meta policy h1 h2 hf hact
    exact checkUSBFileStep_enforcing st drivePath (usbScanNames fs drivePath) now acc
      k0 meta policy hallow h1 h2 hf hact
  · intro acc k0 meta policy h1 h2 hf hb hq ha
    exact checkUSBFileStep_skip st drivePath (usbScanNames fs drivePath) now acc
      k0 meta policy h1 h2 hf hb hq ha
  · intro acc k0 meta h
    exact checkUSBFileStep_no_transition st drivePath (usbScanNames fs drivePath) now acc
      k0 meta h
  · intro nm h1 h2
    exact markExisting_find ust fs drivePath nm h1 h2
  · have hinv : ∀ nm, (usbScanNames fs drivePath).contains nm = true →
        (∃ e ∈ (MarkExistingUSBFilesAsProcessed ust fs drivePath).monitoredFiles,
          e.2.name = nm) →
        stateMapFind
          (MarkExistingUSBFilesAsProcessed ust fs drivePath).currentUSBFileState
          (drivePath ++ ":" ++ nm) = some true := by
      intro nm h1 h2
      obtain ⟨e, he, hname⟩ := h2
      have hmonEq : (MarkExistingUSBFilesAsProcessed ust fs drivePath).monitoredFiles =
          ust.monitoredFiles := by
        simp [MarkExistingUSBFilesAsProcessed]
      rw [hmonEq] at he
      have hany : ust.monitoredFiles.any (fun mp => mp.2.name = nm) = true :=
        List.any_eq_true.mpr ⟨e, he, by simp [hname]⟩
      have hmem : nm ∈ (ScanDirectoryRecursiveUSB fs drivePath drivePath).map
          (fun fp => fp.1) := List.mem_of_elem_eq_true h1
      exact markExisting_find ust fs drivePath nm hany hmem
    exact usbSweep_no_trigger st drivePath (usbScanNames fs drivePath) now
      (MarkExistingUSBFilesAsProcessed ust fs drivePath).monitoredFiles
      ⟨MarkExistingUSBFilesAsProcessed ust fs drivePath, fs, [], [], []⟩ hinv

/-- Enabled USB transfer policy alerting on files from `C:\docs`. -/
def usbTransferAlertPolicy : USBFileTransferPolicy :=
  { policyId := "t1", name := "usb transfer alert", action := "alert",
    severity := "high", monitoredPaths := ["C:\\docs"] }

def stUsbTransfer : AgentState :=
  { hasUsbTransferPolicies := true, allowEvents := true,
    usbTransferPolicies := [usbTransferAlertPolicy] }

/-- Tracked file from the monitored directory. -/
def metaSecret : FileMetadata :=
  { name := "secret.txt", relativePath := "secret.txt",
    fullPath := "C:\\docs\\secret.txt" }

def ustTracking : UsbTransferState :=
  { monitoredFiles := [("C:\\docs:secret.txt", metaSecret)] }

/-- The tracked file copied to the ROOT of drive `E:`. -/
def usbRootFs : Fs :=
  [("C:\\docs\\secret.txt", "123-45-6789"), ("E:\\secret.txt", "123-45-6789")]

/-- The tracked file copied into a SUBDIRECTORY of drive `E:`. -/
def usbSubFs : Fs :=
  [("C:\\docs\\secret.txt", "123-45-6789"), ("E:\\sub\\secret.txt", "123-45-6789")]

/-- Witness for C6: a concrete root-level transfer under the alert
policy, plus the marked-sweep conclusions at the same drive. -/
theorem C6_usb_transfer_transition_witness :
    stateMapFind (checkUSBFileStep stUsbTransfer "E:" (usbScanNames usbRootFs "E:") 7
        (⟨ustTracking, usbRootFs, [], [], []⟩ : UsbCheckResult)
        ("C:\\docs:secret.txt", metaSecret)).ust.currentUSBFileState
      ("E:" ++ ":" ++ metaSecret.name) = some true ∧
    ((checkUSBFileStep stUsbTransfer "E:" (usbScanNames usbRootFs "E:") 7
        (⟨ustTracking, usbRootFs, [], [], []⟩ : UsbCheckResult)
        ("C:\\docs:secret.txt", metaSecret)).enforcements =
      (⟨ustTracking, usbRootFs, [], [], []⟩ : UsbCheckResult).enforcements ++
        [(usbTransferAlertPolicy.action, usbTransferAlertPolicy.policyId)]) ∧
    ((checkUSBFileStep stUsbTransfer "E:" (usbScanNames usbRootFs "E:") 7
        (⟨ustTracking, usbRootFs, [], [], []⟩ : UsbCheckResult)
        ("C:\\docs:secret.txt", metaSecret)).sent.length =
      (⟨ustTracking, usbRootFs, [], [], []⟩ : UsbCheckResult).sent.length +
        (if fsExists usbRootFs ("E:" ++ "\\" ++ metaSecret.name) then 1 else 0)) ∧
    (∀ e ∈ (checkUSBFileStep stUsbTransfer "E:" (usbScanNames usbRootFs "E:") 7
        (⟨ustTracking, usbRootFs, [], [], []⟩ : UsbCheckResult)
        ("C:\\docs:secret.txt", metaSecret)).sent,
      e ∈ (⟨ustTracking, usbRootFs, [], [], []⟩ : UsbCheckResult).sent ∨
        e.eventSubtype = "usb_file_transfer") ∧
    stateMapFind
      (MarkExistingUSBFilesAsProcessed ustTracking usbRootFs "E:").currentUSBFileState
      ("E:" ++ ":" ++ "secret.txt") = some true ∧
    (CheckUSBDriveForMonitoredFiles stUsbTransfer
      (MarkExistingUSBFilesAsProcessed ustTracking usbRootFs "E:") usbRootFs "E:"
      7).sent = [] := by
  have h := C6_usb_transfer_transition stUsbTransfer ustTracking usbRootFs "E:" 7 rfl
  have h4 := h.2.2.2.1 (⟨ustTracking, usbRootFs, [], [], []⟩ : UsbCheckResult)
    "C:\\docs:secret.txt" metaSecret usbTransferAlertPolicy (by decide) (by decide)
    (by decide) (Or.inr (Or.inr rfl))
  exact ⟨h.2.1 (⟨ustTracking, usbRootFs, [], [], []⟩ : UsbCheckResult)
      "C:\\docs:secret.txt" metaSecret (by decide) (by decide),
    h4.1, h4.2.1, h4.2.2,
    h.2.2.2.2.2.2.1 "secret.txt" (by decide) (by decide),
    h.2.2.2.2.2.2.2.2.1⟩

/-- C6 counterexample to "exactly one envelope with subtype
usb_file_transfer": the tracked file lands in a SUBDIRECTORY of the
drive; the false-to-true transition is detected (the state flips to
present, the alert enforcement runs), yet NO envelope is emitted because
the handler only checks the drive root. -/
theorem C6_counterexample :
    (CheckUSBDriveForMonitoredFiles stUsbTransfer ustTracking usbSubFs "E:" 7).enforcements =
      [("alert", "t1")] ∧
    (CheckUSBDriveForMonitoredFiles stUsbTransfer ustTracking usbSubFs "E:" 7).sent = [] ∧
    stateMapFind
      (CheckUSBDriveForMonitoredFiles stUsbTransfer ustTracking
        usbSubFs "E:" 7).ust.currentUSBFileState "E::secret.txt" = some true := by
  refine ⟨by decide, by decide, by decide⟩

end DLPAgent
